import Mathlib

/-!
# GuiVisualizer: the geometry viewer window

A shallow embedding of `src/Open3D/Visualization/Visualizer/GuiVisualizer.cpp`.

The window is glue between a widget toolkit, a render scene and the geometry
readers. None of those collaborators is part of the file, so they are gathered
in one record, `Externals`, and every function of the file takes it as its first
argument. The state of the window is an explicit record, `Window`; each member
function becomes a function from the old state to the new one. Every call that
leaves the file (to a reader, to the scene, to the toolkit) is appended to
`Window.calls`, in program order, so that statements about which collaborator
was invoked, how often and in which order can be made.

Exceptions are modelled where the source handles them: the two readers return
`Except`, and a function that calls them returns `Except` as well.
-/

namespace GuiVisualizer

/-! ## Data model -/

/-- The enumeration `geometry::Geometry::GeometryType`, with the thirteen values
the `switch` of `SetGeometry` enumerates. -/
inductive GeometryType
  | Unspecified
  | PointCloud
  | VoxelGrid
  | Octree
  | LineSet
  | MeshBase
  | TriangleMesh
  | HalfEdgeTriangleMesh
  | Image
  | RGBDImage
  | TetraMesh
  | OrientedBoundingBox
  | AxisAlignedBoundingBox
  deriving DecidableEq, Repr

/-- The type `visualization::GeometryHandle`: an identifier handed out by the scene. -/
abbrev GeometryHandle := Nat

/-- The enumeration `MenuId`, in declaration order (values 0 to 9). -/
inductive MenuId
  | FILE_OPEN
  | FILE_EXPORT_RGB
  | FILE_EXPORT_DEPTH
  | FILE_CLOSE
  | VIEW_POINTS
  | VIEW_WIREFRAME
  | VIEW_MESH
  | SETTINGS_LIGHT
  | HELP_ABOUT
  | HELP_CONTACT
  deriving DecidableEq, Repr

/-- The numeric value of an enumerator of `MenuId`. -/
def MenuId.toItemId : MenuId → Int
  | .FILE_OPEN => 0
  | .FILE_EXPORT_RGB => 1
  | .FILE_EXPORT_DEPTH => 2
  | .FILE_CLOSE => 3
  | .VIEW_POINTS => 4
  | .VIEW_WIREFRAME => 5
  | .VIEW_MESH => 6
  | .SETTINGS_LIGHT => 7
  | .HELP_ABOUT => 8
  | .HELP_CONTACT => 9

/-- The conversion `MenuId(itemId)` at the head of `OnMenuItemSelected`. A value
that names no enumerator matches no `case` label, which is `none` here. -/
def MenuId.ofItemId (itemId : Int) : Option MenuId :=
  if itemId = 0 then some .FILE_OPEN
  else if itemId = 1 then some .FILE_EXPORT_RGB
  else if itemId = 2 then some .FILE_EXPORT_DEPTH
  else if itemId = 3 then some .FILE_CLOSE
  else if itemId = 4 then some .VIEW_POINTS
  else if itemId = 5 then some .VIEW_WIREFRAME
  else if itemId = 6 then some .VIEW_MESH
  else if itemId = 7 then some .SETTINGS_LIGHT
  else if itemId = 8 then some .HELP_ABOUT
  else if itemId = 9 then some .HELP_CONTACT
  else none

/-- The collaborators of the file: the geometry classes, the two readers, the
bounding-box arithmetic and the render scene. Their code is outside the file;
the window only calls them, so they are parameters of the embedding. -/
structure Externals where
  /-- Whatever a reader may throw. -/
  Exn : Type
  /-- The class `geometry::Geometry` (what a `shared_ptr<const Geometry>` points to). -/
  Geometry : Type
  /-- The class `geometry::TriangleMesh`. -/
  TriangleMesh : Type
  /-- The class `geometry::PointCloud`. -/
  PointCloud : Type
  /-- The class `geometry::AxisAlignedBoundingBox`. -/
  Box : Type
  /-- The type `Eigen::Vector3d`. -/
  Vector3d : Type
  /-- The type `Eigen::Vector3f`. -/
  Vector3f : Type
  /-- The state of the `visualization::Scene` behind `impl_->scene->GetScene()`. -/
  Scene : Type
  /-- The method `Geometry::GetGeometryType()`. -/
  GetGeometryType : Geometry → GeometryType
  /-- The method `Geometry3D::GetAxisAlignedBoundingBox()`, reached through the
  `static_pointer_cast` of the 3D branch. -/
  GetAxisAlignedBoundingBox : Geometry → Box
  /-- The conversion of a `shared_ptr<TriangleMesh>` to a pointer to its base class. -/
  meshAsGeometry : TriangleMesh → Geometry
  /-- The conversion of a `shared_ptr<PointCloud>` to a pointer to its base class. -/
  cloudAsGeometry : PointCloud → Geometry
  /-- The value of `std::make_shared<geometry::TriangleMesh>()`. -/
  newTriangleMesh : TriangleMesh
  /-- The value of `std::make_shared<geometry::PointCloud>()`. -/
  newPointCloud : PointCloud
  /-- The value of `mesh->triangles_.size()`. -/
  trianglesSize : TriangleMesh → Nat
  /-- The method `TriangleMesh::ComputeVertexNormals()`, as the mesh it leaves. -/
  ComputeVertexNormals : TriangleMesh → TriangleMesh
  /-- The method `PointCloud::NormalizeNormals()`, as the cloud it leaves. -/
  NormalizeNormals : PointCloud → PointCloud
  /-- The reader `io::ReadTriangleMesh(path, mesh)`: it throws, or returns its
  flag together with the mesh it wrote into. -/
  ReadTriangleMesh : String → TriangleMesh → Except Exn (Bool × TriangleMesh)
  /-- The reader `io::ReadPointCloud(path, cloud)`: it throws, or returns its
  flag together with the cloud it wrote into. -/
  ReadPointCloud : String → PointCloud → Except Exn (Bool × PointCloud)
  /-- The default-constructed `geometry::AxisAlignedBoundingBox`. -/
  newBox : Box
  /-- The operator `+=` of `AxisAlignedBoundingBox`, as the value of its left operand afterwards. -/
  boxAdd : Box → Box → Box
  /-- The method `AxisAlignedBoundingBox::GetCenter()`. -/
  GetCenter : Box → Vector3d
  /-- The conversion `.cast<float>()`. -/
  castFloat : Vector3d → Vector3f
  /-- The method `Scene::AddGeometry`: the handle it returns and the scene it leaves. -/
  AddGeometry : Scene → Geometry → GeometryHandle × Scene
  /-- The method `Scene::RemoveGeometry`, as the scene it leaves. -/
  RemoveGeometry : Scene → GeometryHandle → Scene

/-- The arguments of one call of `SceneWidget::SetupCamera`. The field of view is
the literal `60.0` of the source, kept as a rational number. -/
structure CameraSetup (X : Externals) where
  verticalFoV : Rat
  bounds : X.Box
  centerOfRotation : X.Vector3f

/-- The enumeration `gui::FileDialog::Type`. -/
inductive FileDialogType
  | OPEN
  | SAVE
  deriving DecidableEq, Repr

/-- The callbacks installed with `SetOnCancel`. The file has a single one:
`[this]() { this->CloseDialog(); }`. -/
inductive OnCancel
  | closeDialog
  deriving DecidableEq, Repr

/-- The callbacks installed with `SetOnDone` in `OnMenuItemSelected`, one
constructor for each lambda, holding what the lambda captures. -/
inductive OnDone
  /-- The lambda of `FILE_OPEN`: `CloseDialog(); OnDragDropped(path);`. -/
  | openGeometry
  /-- The lambda of the export items, which captures `menuId`. -/
  | exportImage (menuId : MenuId)
  deriving DecidableEq, Repr

/-- What `ShowDialog` can be given by `OnMenuItemSelected`. -/
inductive Dialog
  /-- A `gui::FileDialog` with its type, title, filters and callbacks. -/
  | FileDialog (type : FileDialogType) (title : String) (filters : List (String × String))
      (onCancel : OnCancel) (onDone : OnDone)
  /-- A plain `gui::Dialog` (About, Contact Us) whose OK button closes it. -/
  | Plain (title : String)
  deriving DecidableEq, Repr

/-- The struct `LightSettings`: the handle of the light in the scene (`kBad` is
`none`), its position, and the values its widgets hold. -/
structure LightSettings where
  hLight : Option Nat
  position : Int × Int × Int
  wgtEnabled : Option Bool
  wgtIntensity : Int
  wgtColor : Nat × Nat × Nat
  deriving DecidableEq, Repr

/-- The struct `Impl::SceneSettings`: the handles of the ambient light and of the
skybox, what the widgets of the panel hold, and the seven lights. -/
structure SceneSettings where
  hIbl : Nat
  hSky : Nat
  wgtBaseVisible : Bool
  wgtAmbientEnabled : Bool
  wgtSkyEnabled : Bool
  wgtDirectionalEnabled : Bool
  wgtAmbientIntensity : Int
  sun : LightSettings
  spotlights : List LightSettings
  deriving DecidableEq, Repr

/-- One call that leaves the file, with its arguments. A call to the logger keeps
the format string and the arguments that follow it, as the source passes them. -/
inductive Call (X : Externals)
  | ReadTriangleMesh (path : String)
  | ReadPointCloud (path : String)
  | ComputeVertexNormals
  | NormalizeNormals
  | LogWarning (format : String) (args : List String)
  | LogInfof (format : String) (args : List String)
  | RemoveGeometry (h : GeometryHandle)
  | AddGeometry (g : X.Geometry)
  | SetupCamera (camera : CameraSetup X)
  | SetTitle (title : String)
  | ShowDialog (dlg : Dialog)
  | CloseDialog
  | ShowMessageBox (title : String) (message : String)
  | Close
  | SetVisible (visible : Bool)
  | SetChecked (item : MenuId) (checked : Bool)

/-- The state of one `GuiVisualizer`: `impl_` (the handles, the scene, the light
settings) and what the base class `gui::Window` holds (title, active dialog,
message box, whether it was closed), followed by the record of outgoing calls. -/
structure Window (X : Externals) where
  /-- The title last given to `Super::SetTitle`. -/
  title : String
  /-- The vector `impl_->geometryHandles`. -/
  geometryHandles : List GeometryHandle
  /-- The scene behind `impl_->scene->GetScene()`. -/
  scene3d : X.Scene
  /-- The arguments of the last `impl_->scene->SetupCamera`, if any. -/
  camera : Option (CameraSetup X)
  /-- The struct `impl_->lightSettings`. -/
  lightSettings : SceneSettings
  /-- The dialog last given to `ShowDialog` and not closed since. -/
  dialog : Option Dialog
  /-- The title and text last given to `ShowMessageBox`. -/
  messageBox : Option (String × String)
  /-- Whether `Close()` was called. -/
  closed : Bool
  /-- Every outgoing call so far, oldest first. -/
  calls : List (Call X)

/-! ## The base class `gui::Window` and the scene, as state updates -/

/-- Append one outgoing call to the record. -/
def Window.record {X : Externals} (w : Window X) (c : Call X) : Window X :=
  { w with calls := w.calls ++ [c] }

/-- The call `Super::SetTitle(title.c_str())` made by `GuiVisualizer::SetTitle`. -/
def SetTitle {X : Externals} (w : Window X) (title : String) : Window X :=
  { w.record (.SetTitle title) with title := title }

/-- The call `ShowDialog(dlg)`. -/
def ShowDialog {X : Externals} (w : Window X) (dlg : Dialog) : Window X :=
  { w.record (.ShowDialog dlg) with dialog := some dlg }

/-- The call `CloseDialog()`. -/
def CloseDialog {X : Externals} (w : Window X) : Window X :=
  { w.record .CloseDialog with dialog := none }

/-- The call `ShowMessageBox(title, message)`. -/
def ShowMessageBox {X : Externals} (w : Window X) (title message : String) : Window X :=
  { w.record (.ShowMessageBox title message) with messageBox := some (title, message) }

/-- The call `this->Close()`. -/
def Close {X : Externals} (w : Window X) : Window X :=
  { w.record .Close with closed := true }

/-- The call `scene3d->RemoveGeometry(h)`. -/
def sceneRemoveGeometry (X : Externals) (w : Window X) (h : GeometryHandle) : Window X :=
  { w.record (.RemoveGeometry h) with scene3d := X.RemoveGeometry w.scene3d h }

/-- The call `scene3d->AddGeometry(*g3)`: the handle and the window afterwards. -/
def sceneAddGeometry (X : Externals) (w : Window X) (g : X.Geometry) :
    GeometryHandle × Window X :=
  ((X.AddGeometry w.scene3d g).1,
   { w.record (.AddGeometry g) with scene3d := (X.AddGeometry w.scene3d g).2 })

/-- The call `impl_->scene->SetupCamera(fov, bounds, center)`. -/
def SetupCamera {X : Externals} (w : Window X) (verticalFoV : Rat) (bounds : X.Box)
    (centerOfRotation : X.Vector3f) : Window X :=
  { w.record (.SetupCamera ⟨verticalFoV, bounds, centerOfRotation⟩) with
    camera := some ⟨verticalFoV, bounds, centerOfRotation⟩ }

/-! ## `GuiVisualizer::SetGeometry` -/

/-- The first loop of `SetGeometry`:
`for (auto &h : impl_->geometryHandles) scene3d->RemoveGeometry(h);`,
run over the handles that are still to visit. -/
def removeLoop (X : Externals) (w : Window X) : List GeometryHandle → Window X
  | [] => w
  | h :: hs => removeLoop X (sceneRemoveGeometry X w h) hs

/-- The second loop of `SetGeometry`, `for (auto &g : geometries) switch (...)`, run
over the geometries still to visit, with the local `bounds`. The ten 3D labels
share one block (accumulate the bounds, add to the scene, push the handle); the
block has no `break` of its own and falls into the `break` of the image labels. -/
def addLoop (X : Externals) (bounds : X.Box) (w : Window X) :
    List X.Geometry → X.Box × Window X
  | [] => (bounds, w)
  | g :: gs =>
    match X.GetGeometryType g with
    | .OrientedBoundingBox | .AxisAlignedBoundingBox | .PointCloud | .LineSet
    | .MeshBase | .TriangleMesh | .HalfEdgeTriangleMesh | .TetraMesh | .Octree
    | .VoxelGrid =>
      let bounds1 := X.boxAdd bounds (X.GetAxisAlignedBoundingBox g)
      let added := sceneAddGeometry X w g
      addLoop X bounds1
        { added.2 with geometryHandles := added.2.geometryHandles ++ [added.1] } gs
    | .RGBDImage | .Image | .Unspecified => addLoop X bounds w gs

/-- The member function `GuiVisualizer::SetGeometry(geometries)`. -/
def SetGeometry (X : Externals) (w : Window X) (geometries : List X.Geometry) : Window X :=
  let w1 := removeLoop X w w.geometryHandles
  let w2 := { w1 with geometryHandles := [] }
  let r := addLoop X X.newBox w2 geometries
  SetupCamera r.2 60 r.1 (X.castFloat (X.GetCenter r.1))

/-! ## `GuiVisualizer::LoadGeometry` -/

/-- The member function `GuiVisualizer::LoadGeometry(path)`: the flag it returns and
the window afterwards. The local `geometry` is `none` for a null pointer. Each
reader sits in a `try` whose `catch (...)` sets the flag to false. -/
def LoadGeometry (X : Externals) (w : Window X) (path : String) :
    Except X.Exn (Bool × Window X) := do
  let mut w := w
  let mut geometry : Option X.Geometry := none
  let mesh := X.newTriangleMesh
  w := w.record (.ReadTriangleMesh path)
  let (meshSuccess, mesh) ←
    try X.ReadTriangleMesh path mesh
    catch _ => pure (false, mesh)
  if meshSuccess then
    if X.trianglesSize mesh = 0 then
      w := w.record (.LogWarning "Contains 0 triangles, will read as point cloud" [])
    else
      w := w.record .ComputeVertexNormals
      geometry := some (X.meshAsGeometry (X.ComputeVertexNormals mesh))
  else
    w := w.record (.LogWarning "Failed to read %s" [path])
  if geometry.isNone then
    let cloud := X.newPointCloud
    w := w.record (.ReadPointCloud path)
    let (success, cloud) ←
      try X.ReadPointCloud path cloud
      catch _ => pure (false, cloud)
    if success then
      w := w.record (.LogInfof "Successfully read %s" [path])
      w := w.record .NormalizeNormals
      geometry := some (X.cloudAsGeometry (X.NormalizeNormals cloud))
    else
      w := w.record (.LogWarning "Failed to read points %s" [path])
  match geometry with
  | some g => return (true, SetGeometry X w [g])
  | none => return (false, w)

/-! ## Export, drag and drop, the menu -/

/-- The member function `GuiVisualizer::ExportRGB(path)`. -/
def ExportRGB {X : Externals} (w : Window X) (_path : String) : Window X :=
  ShowMessageBox w "Not implemented" "ExportRGB() is not implemented yet"

/-- The member function `GuiVisualizer::ExportDepth(path)`. -/
def ExportDepth {X : Externals} (w : Window X) (_path : String) : Window X :=
  ShowMessageBox w "Not implemented" "ExportDepth() is not implemented yet"

/-- The member function `GuiVisualizer::OnDragDropped(path)`, with
`LOAD_IN_NEW_WINDOW` defined as 0: the branch that loads into this window. -/
def OnDragDropped (X : Externals) (w : Window X) (path : String) :
    Except X.Exn (Window X) := do
  let title := "Open3D - " ++ path
  let w1 := SetTitle w title
  let (loaded, w2) ← LoadGeometry X w1 path
  if !loaded then
    let err := "Error reading geometry file '" ++ path ++ "'"
    return ShowMessageBox w2 "Error loading geometry" err
  else
    return w2

/-- The filters the `FILE_OPEN` branch adds to its dialog, in order. -/
def openGeometryFilters : List (String × String) :=
  [(".ply .stl .obj .off .gltf .glb",
    "Triangle mesh files (.ply, .stl, .obj, .off, .gltf, .glb)"),
   (".xyz .xyzn .xyzrgb .ply .pcd .pts",
    "Point cloud files (.xyz, .xyzn, .xyzrgb, .ply, .pcd, .pts)"),
   (".ply", "Polygon files (.ply)"),
   (".stl", "Stereolithography files (.stl)"),
   (".obj", "Wavefront OBJ files (.obj)"),
   (".off", "Object file format (.off)"),
   (".gltf", "OpenGL transfer files (.gltf)"),
   (".glb", "OpenGL binary transfer files (.glb)"),
   (".xyz", "ASCII point cloud files (.xyz)"),
   (".xyzn", "ASCII point cloud with normals (.xyzn)"),
   (".xyzrgb", "ASCII point cloud files with colors (.xyzrgb)"),
   (".pcd", "Point Cloud Data files (.pcd)"),
   (".pts", "3D Points files (.pts)"),
   ("", "All files")]

/-- The filters the export branch adds to its dialog, in order. -/
def saveFileFilters : List (String × String) :=
  [(".png", "PNG images (.png)"), ("", "All files")]

/-- The member function `GuiVisualizer::OnMenuItemSelected(itemId)`. -/
def OnMenuItemSelected {X : Externals} (w : Window X) (itemId : Int) : Window X :=
  match MenuId.ofItemId itemId with
  | some .FILE_OPEN =>
    ShowDialog w (.FileDialog .OPEN "Open Geometry" openGeometryFilters
      .closeDialog .openGeometry)
  | some .FILE_EXPORT_RGB =>
    ShowDialog w (.FileDialog .SAVE "Save File" saveFileFilters
      .closeDialog (.exportImage .FILE_EXPORT_RGB))
  | some .FILE_EXPORT_DEPTH =>
    ShowDialog w (.FileDialog .SAVE "Save File" saveFileFilters
      .closeDialog (.exportImage .FILE_EXPORT_DEPTH))
  | some .FILE_CLOSE => Close w
  | some .VIEW_POINTS => w
  | some .VIEW_WIREFRAME => w
  | some .VIEW_MESH => w
  | some .SETTINGS_LIGHT =>
    let visibility := !w.lightSettings.wgtBaseVisible
    let w1 := { w.record (.SetVisible visibility) with
      lightSettings := { w.lightSettings with wgtBaseVisible := visibility } }
    w1.record (.SetChecked .SETTINGS_LIGHT visibility)
  | some .HELP_ABOUT => ShowDialog w (.Plain "About")
  | some .HELP_CONTACT => ShowDialog w (.Plain "Contact Us")
  | none => w

/-- The body of a lambda given to `SetOnDone`, run with the chosen path. -/
def runOnDone (X : Externals) (w : Window X) (path : String) :
    OnDone → Except X.Exn (Window X)
  | .openGeometry => OnDragDropped X (CloseDialog w) path
  | .exportImage menuId =>
    if menuId = .FILE_EXPORT_RGB then
      pure (ExportRGB (CloseDialog w) path)
    else
      pure (ExportDepth (CloseDialog w) path)

/-- The body of a lambda given to `SetOnCancel`. -/
def runOnCancel {X : Externals} (w : Window X) : OnCancel → Window X
  | .closeDialog => CloseDialog w

/-- The toolkit reports that the active file dialog completed with `path`: the
callback the dialog was given with `SetOnDone` runs. Without an active file
dialog there is nothing to run. -/
def dialogDone (X : Externals) (w : Window X) (path : String) : Except X.Exn (Window X) :=
  match w.dialog with
  | some (.FileDialog _ _ _ _ onDone) => runOnDone X w path onDone
  | _ => pure w

/-- The toolkit reports that the active file dialog was cancelled: the callback
the dialog was given with `SetOnCancel` runs. -/
def dialogCancel {X : Externals} (w : Window X) : Window X :=
  match w.dialog with
  | some (.FileDialog _ _ _ onCancel _) => runOnCancel w onCancel
  | _ => w

/-! ## Vocabulary of the statements -/

/-- The geometry types the statements call 3D: OrientedBoundingBox,
AxisAlignedBoundingBox, PointCloud, LineSet, MeshBase, TriangleMesh,
HalfEdgeTriangleMesh, TetraMesh, Octree and VoxelGrid. -/
def GeometryType.is3D : GeometryType → Bool
  | .OrientedBoundingBox => true
  | .AxisAlignedBoundingBox => true
  | .PointCloud => true
  | .LineSet => true
  | .MeshBase => true
  | .TriangleMesh => true
  | .HalfEdgeTriangleMesh => true
  | .TetraMesh => true
  | .Octree => true
  | .VoxelGrid => true
  | .RGBDImage => false
  | .Image => false
  | .Unspecified => false

/-- The elements of a list of geometries whose type is 3D, in input order. -/
def only3D (X : Externals) (gs : List X.Geometry) : List X.Geometry :=
  gs.filter (fun g => (X.GetGeometryType g).is3D)

/-- The scene after `RemoveGeometry` was called for each handle, in order. -/
def removeAll (X : Externals) (s : X.Scene) (hs : List GeometryHandle) : X.Scene :=
  hs.foldl X.RemoveGeometry s

/-- The handles `AddGeometry` returns when it is called for each geometry in
order, each call on the scene the previous one left, and the scene at the end. -/
def addAll (X : Externals) (s : X.Scene) : List X.Geometry → List GeometryHandle × X.Scene
  | [] => ([], s)
  | g :: gs =>
    ((X.AddGeometry s g).1 :: (addAll X (X.AddGeometry s g).2 gs).1,
     (addAll X (X.AddGeometry s g).2 gs).2)

/-- A bounding box accumulated (`+=`) with the bounding box of each geometry, in order. -/
def accumulateBounds (X : Externals) (b : X.Box) (gs : List X.Geometry) : X.Box :=
  gs.foldl (fun acc g => X.boxAdd acc (X.GetAxisAlignedBoundingBox g)) b

/-- The outgoing calls made between the state `w` and a later state `w1`. -/
def newCalls {X : Externals} (w w1 : Window X) : List (Call X) :=
  w1.calls.drop w.calls.length

/-- The geometries passed to `AddGeometry` in a list of calls, in order. -/
def addedGeometries {X : Externals} (cs : List (Call X)) : List X.Geometry :=
  cs.filterMap (fun c => match c with
    | .AddGeometry g => some g
    | _ => none)

/-- The handles passed to `RemoveGeometry` in a list of calls, in order. -/
def removedHandles {X : Externals} (cs : List (Call X)) : List GeometryHandle :=
  cs.filterMap (fun c => match c with
    | .RemoveGeometry h => some h
    | _ => none)

/-- The arguments of the `SetupCamera` calls in a list of calls, in order. -/
def cameraSetups {X : Externals} (cs : List (Call X)) : List (CameraSetup X) :=
  cs.filterMap (fun c => match c with
    | .SetupCamera cam => some cam
    | _ => none)

/-- The paths given to the point-cloud reader in a list of calls, in order. -/
def pointCloudReads {X : Externals} (cs : List (Call X)) : List String :=
  cs.filterMap (fun c => match c with
    | .ReadPointCloud path => some path
    | _ => none)

/-- The title and text of the message boxes shown in a list of calls, in order. -/
def messageBoxes {X : Externals} (cs : List (Call X)) : List (String × String) :=
  cs.filterMap (fun c => match c with
    | .ShowMessageBox title message => some (title, message)
    | _ => none)

/-- Whether a call goes to the scene or to its camera. -/
def Call.isSceneCall {X : Externals} : Call X → Bool
  | .RemoveGeometry _ => true
  | .AddGeometry _ => true
  | .SetupCamera _ => true
  | _ => false

/-- A reader succeeds when it returns true; it fails when it returns false or throws. -/
def readerSucceeded {ε α : Type} : Except ε (Bool × α) → Bool
  | .ok (true, _) => true
  | _ => false

/-- What a reader wrote, when it succeeded. -/
def readerValue {ε α : Type} : Except ε (Bool × α) → Option α
  | .ok (true, a) => some a
  | _ => none

/-- The result of the triangle-mesh reader on a path, as `LoadGeometry` calls it. -/
def meshRead (X : Externals) (path : String) : Except X.Exn (Bool × X.TriangleMesh) :=
  X.ReadTriangleMesh path X.newTriangleMesh

/-- The result of the point-cloud reader on a path, as `LoadGeometry` calls it. -/
def cloudRead (X : Externals) (path : String) : Except X.Exn (Bool × X.PointCloud) :=
  X.ReadPointCloud path X.newPointCloud

/-- The mesh `LoadGeometry` keeps: what the mesh reader wrote, when it succeeded
and the mesh has at least one triangle. -/
def keptMesh (X : Externals) (path : String) : Option X.TriangleMesh :=
  match readerValue (meshRead X path) with
  | some m => if X.trianglesSize m = 0 then none else some m
  | none => none

/-- The warning `LoadGeometry` logs when it does not keep a mesh, as the call to
the logger: the format and the arguments that follow it. -/
def meshWarning (X : Externals) (path : String) : Call X :=
  if readerSucceeded (meshRead X path) then
    .LogWarning "Contains 0 triangles, will read as point cloud" []
  else .LogWarning "Failed to read %s" [path]

/-- The calls `SetGeometry` makes for a list of geometries when the window holds
the handles `hs`: the removals, the additions, the camera. -/
def setGeometryCalls (X : Externals) (hs : List GeometryHandle) (gs : List X.Geometry) :
    List (Call X) :=
  hs.map Call.RemoveGeometry ++ ((only3D X gs).map Call.AddGeometry ++
    [Call.SetupCamera ⟨60, accumulateBounds X X.newBox (only3D X gs),
      X.castFloat (X.GetCenter (accumulateBounds X X.newBox (only3D X gs)))⟩])

/-- A run of `SetGeometry` calls, one for each list, in order. -/
def SetGeometrySeq (X : Externals) (w : Window X) (gss : List (List X.Geometry)) : Window X :=
  gss.foldl (SetGeometry X) w

/-- A scene whose `AddGeometry` returns fresh handles, read through `geoms`, the
geometries it holds with their handles: `RemoveGeometry` drops the entries of
the handle, and `AddGeometry` returns a handle no entry has and appends the new
entry under it. -/
def FreshScene (X : Externals) (geoms : X.Scene → List (GeometryHandle × X.Geometry)) : Prop :=
  (∀ s h, geoms (X.RemoveGeometry s h) = (geoms s).filter (fun e => e.1 ≠ h)) ∧
  (∀ s g, (X.AddGeometry s g).1 ∉ (geoms s).map Prod.fst ∧
    geoms (X.AddGeometry s g).2 = geoms s ++ [((X.AddGeometry s g).1, g)])

/-! ## The menubar of the application -/

/-- One call made on a `gui::Menu`, with its arguments. A null shortcut is `none`. -/
inductive MenuOp
  | AddItem (name : String) (shortcut : Option String) (itemId : MenuId)
  | SetEnabled (itemId : MenuId) (enabled : Bool)
  | AddSeparator
  | AddMenu (name : String) (submenu : List MenuOp)

/-- The class `gui::Menu` is outside the file; a menu is kept as the calls made
on it since `std::make_shared<gui::Menu>()`, in order. -/
abbrev Menu := List MenuOp

/-- The call `menu->AddItem(name, shortcut, itemId)`. -/
def Menu.AddItem (menu : Menu) (name : String) (shortcut : Option String)
    (itemId : MenuId) : Menu :=
  menu ++ [MenuOp.AddItem name shortcut itemId]

/-- The call `menu->SetEnabled(itemId, enabled)`. -/
def Menu.SetEnabled (menu : Menu) (itemId : MenuId) (enabled : Bool) : Menu :=
  menu ++ [MenuOp.SetEnabled itemId enabled]

/-- The call `menu->AddSeparator()`. -/
def Menu.AddSeparator (menu : Menu) : Menu :=
  menu ++ [MenuOp.AddSeparator]

/-- The call `menu->AddMenu(name, submenu)`. -/
def Menu.AddMenu (menu : Menu) (name : String) (submenu : Menu) : Menu :=
  menu ++ [MenuOp.AddMenu name submenu]

/-- What this file uses of the singleton `gui::Application`: its menubar, `none`
while `GetMenubar()` is null. -/
structure Application where
  menubar : Option Menu

/-- The block `// Create menu` at the head of the constructor
`GuiVisualizer::GuiVisualizer`, as the application it leaves. It is the only
place of the constructor that reads or installs the menubar. -/
def createMenu (app : Application) : Application :=
  if app.menubar.isNone then
    let fileMenu : Menu := []
    let fileMenu := fileMenu.AddItem "Open..." (some "Ctrl-O") .FILE_OPEN
    let fileMenu := fileMenu.AddItem "Export RGB..." none .FILE_EXPORT_RGB
    let fileMenu := fileMenu.SetEnabled .FILE_EXPORT_RGB false
    let fileMenu := fileMenu.AddItem "Export depth image..." none .FILE_EXPORT_DEPTH
    let fileMenu := fileMenu.SetEnabled .FILE_EXPORT_DEPTH false
    let fileMenu := fileMenu.AddSeparator
    let fileMenu := fileMenu.AddItem "Close" (some "Ctrl-W") .FILE_CLOSE
    let viewMenu : Menu := []
    let viewMenu := viewMenu.AddItem "Points" none .VIEW_POINTS
    let viewMenu := viewMenu.SetEnabled .VIEW_POINTS false
    let viewMenu := viewMenu.AddItem "Wireframe" none .VIEW_WIREFRAME
    let viewMenu := viewMenu.SetEnabled .VIEW_WIREFRAME false
    let viewMenu := viewMenu.AddItem "Mesh" none .VIEW_MESH
    let viewMenu := viewMenu.SetEnabled .VIEW_MESH false
    let helpMenu : Menu := []
    let helpMenu := helpMenu.AddItem "About" none .HELP_ABOUT
    let helpMenu := helpMenu.AddItem "Contact" none .HELP_CONTACT
    let settingsMenu : Menu := []
    let settingsMenu := settingsMenu.AddItem "Light" none .SETTINGS_LIGHT
    let menu : Menu := []
    let menu := menu.AddMenu "File" fileMenu
    let menu := menu.AddMenu "View" viewMenu
    let menu := menu.AddMenu "Settings" settingsMenu
    let menu := menu.AddMenu "Help" helpMenu
    { app with menubar := some menu }
  else
    app

/-- The names of the top-level menus of a menubar: those given to `AddMenu` on
the menubar itself, in order. -/
def topLevelMenus (menu : Menu) : List String :=
  menu.filterMap (fun op => match op with
    | .AddMenu name _ => some name
    | _ => none)

mutual
/-- The `SetEnabled` calls one call stands for: itself, or those made on the
menu it adds. -/
def MenuOp.enabledCalls : MenuOp → List (MenuId × Bool)
  | .SetEnabled itemId enabled => [(itemId, enabled)]
  | .AddMenu _ submenu => enabledCallsOf submenu
  | _ => []
/-- The `SetEnabled` calls made on a menu and on the menus below it, in order,
each as the item and the flag given. -/
def enabledCallsOf : List MenuOp → List (MenuId × Bool)
  | [] => []
  | op :: ops => op.enabledCalls ++ enabledCallsOf ops
end

mutual
/-- The items one call stands for: the one it adds, or those of the menu it adds. -/
def MenuOp.items : MenuOp → List (MenuId × String)
  | .AddItem name _ itemId => [(itemId, name)]
  | .AddMenu _ submenu => itemsOf submenu
  | _ => []
/-- The items added to a menu and to the menus below it, in order, each with its label. -/
def itemsOf : List MenuOp → List (MenuId × String)
  | [] => []
  | op :: ops => op.items ++ itemsOf ops
end

/-- An application without a menubar, as before the first window is constructed. -/
def demoApplication : Application where
  menubar := none

/-- An application whose menubar was installed by someone else. -/
def demoApplicationOther : Application where
  menubar := some [MenuOp.AddMenu "Tools" [MenuOp.AddItem "Close" none .FILE_CLOSE]]

/-! ## A concrete set of collaborators

The statements hold for every choice of collaborators. To evaluate the
definitions on concrete inputs, here is a small one: a geometry is a type tag
with a label, a mesh is its number of triangles, a cloud is its number of
points, a box is the list of labels it covers, and the scene is the list of the
geometries it holds, each under a handle one above the sum of those in use. -/

/-- A small concrete set of collaborators. Four files exist: `mesh.ply` is a
mesh of two triangles, `points.ply` reads as a mesh without triangles and as a
cloud of seven points, `empty.ply` reads as a mesh without triangles and the
point-cloud reader returns false on it, and reading `broken.ply` throws. Any
other path makes both readers return false. -/
def demo : Externals where
  Exn := String
  Geometry := GeometryType × Nat
  TriangleMesh := Nat
  PointCloud := Nat
  Box := List Nat
  Vector3d := Nat
  Vector3f := Nat
  Scene := List (GeometryHandle × (GeometryType × Nat))
  GetGeometryType g := g.1
  GetAxisAlignedBoundingBox g := [g.2]
  meshAsGeometry m := (.TriangleMesh, m)
  cloudAsGeometry c := (.PointCloud, c)
  newTriangleMesh := 0
  newPointCloud := 0
  trianglesSize m := m
  ComputeVertexNormals m := m + 100
  NormalizeNormals c := c + 1000
  ReadTriangleMesh path _ :=
    if path = "mesh.ply" then .ok (true, 2)
    else if path = "points.ply" then .ok (true, 0)
    else if path = "empty.ply" then .ok (true, 0)
    else if path = "broken.ply" then .error "bad header"
    else .ok (false, 0)
  ReadPointCloud path _ :=
    if path = "points.ply" then .ok (true, 7)
    else if path = "broken.ply" then .error "bad header"
    else .ok (false, 0)
  newBox := []
  boxAdd a b := a ++ b
  GetCenter b := b.sum
  castFloat v := v
  AddGeometry s g := ((s.map Prod.fst).sum + 1, s ++ [((s.map Prod.fst).sum + 1, g)])
  RemoveGeometry s h := s.filter (fun e => e.1 ≠ h)

/-- The reading of the concrete scene: it is the list of its geometries. -/
def demoGeoms (s : demo.Scene) : List (GeometryHandle × demo.Geometry) := s

/-- The light settings the constructor leaves: the sun pointing down, six
spotlights at distance 500 along the axes, not yet in the scene. -/
def demoLights : SceneSettings where
  hIbl := 1
  hSky := 2
  wgtBaseVisible := false
  wgtAmbientEnabled := true
  wgtSkyEnabled := false
  wgtDirectionalEnabled := true
  wgtAmbientIntensity := 50000
  sun := ⟨some 0, (0, 0, -1), none, 100000, (1, 1, 1)⟩
  spotlights :=
    [⟨none, (-500, 0, 0), some false, 50000, (1, 1, 1)⟩,
     ⟨none, (500, 0, 0), some false, 50000, (1, 1, 1)⟩,
     ⟨none, (0, -500, 0), some false, 50000, (1, 1, 1)⟩,
     ⟨none, (0, 500, 0), some false, 50000, (1, 1, 1)⟩,
     ⟨none, (0, 0, -500), some false, 50000, (1, 1, 1)⟩,
     ⟨none, (0, 0, 500), some false, 50000, (1, 1, 1)⟩]

/-- A window over the concrete collaborators with an empty scene, the camera set
up on the default box as `SetGeometry` leaves it for an empty list. -/
def demoWindow : Window demo where
  title := "Open3D"
  geometryHandles := []
  scene3d := []
  camera := some ⟨60, [], (0 : Nat)⟩
  lightSettings := demoLights
  dialog := none
  messageBox := none
  closed := false
  calls := []

/-- A window over the concrete collaborators that shows one box. -/
def demoWindowBox : Window demo where
  title := "Open3D"
  geometryHandles := [1]
  scene3d := [(1, (.AxisAlignedBoundingBox, 5))]
  camera := some ⟨60, [5], (5 : Nat)⟩
  lightSettings := demoLights
  dialog := none
  messageBox := none
  closed := false
  calls := []

/-! ## The two loops of `SetGeometry` -/

theorem removeLoop_eq (X : Externals) (hs : List GeometryHandle) (w : Window X) :
    removeLoop X w hs =
      { w with scene3d := removeAll X w.scene3d hs,
               calls := w.calls ++ hs.map Call.RemoveGeometry } := by
  induction hs generalizing w with
  | nil => simp [removeLoop, removeAll]
  | cons h hs ih =>
    rw [removeLoop, ih]
    simp [sceneRemoveGeometry, Window.record, removeAll]

theorem addLoop_step_3D (X : Externals) (b : X.Box) (w : Window X) (g : X.Geometry)
    (gs : List X.Geometry) (h3 : (X.GetGeometryType g).is3D = true) :
    addLoop X b w (g :: gs) =
      addLoop X (X.boxAdd b (X.GetAxisAlignedBoundingBox g))
        { (sceneAddGeometry X w g).2 with
          geometryHandles := (sceneAddGeometry X w g).2.geometryHandles ++
            [(sceneAddGeometry X w g).1] } gs := by
  rw [addLoop]
  cases hg : X.GetGeometryType g <;> simp [hg, GeometryType.is3D] at h3 ⊢

theorem addLoop_step_image (X : Externals) (b : X.Box) (w : Window X) (g : X.Geometry)
    (gs : List X.Geometry) (h3 : (X.GetGeometryType g).is3D = false) :
    addLoop X b w (g :: gs) = addLoop X b w gs := by
  rw [addLoop]
  cases hg : X.GetGeometryType g <;> simp [hg, GeometryType.is3D] at h3 ⊢

theorem addLoop_eq (X : Externals) (gs : List X.Geometry) (b : X.Box) (w : Window X) :
    addLoop X b w gs =
      (accumulateBounds X b (only3D X gs),
       { w with scene3d := (addAll X w.scene3d (only3D X gs)).2,
                geometryHandles := w.geometryHandles ++ (addAll X w.scene3d (only3D X gs)).1,
                calls := w.calls ++ (only3D X gs).map Call.AddGeometry }) := by
  induction gs generalizing b w with
  | nil => simp [addLoop, only3D, accumulateBounds, addAll]
  | cons g gs ih =>
    by_cases h3 : (X.GetGeometryType g).is3D = true
    · rw [addLoop_step_3D X b w g gs h3, ih]
      simp [only3D, h3, accumulateBounds, addAll, sceneAddGeometry, Window.record]
    · simp only [Bool.not_eq_true] at h3
      rw [addLoop_step_image X b w g gs h3, ih]
      simp [only3D, h3]

/-- The whole effect of `SetGeometry` on the window, field by field. -/
theorem SetGeometry_eq (X : Externals) (w : Window X) (gs : List X.Geometry) :
    SetGeometry X w gs =
      { w with
        scene3d := (addAll X (removeAll X w.scene3d w.geometryHandles) (only3D X gs)).2,
        geometryHandles :=
          (addAll X (removeAll X w.scene3d w.geometryHandles) (only3D X gs)).1,
        camera := some ⟨60, accumulateBounds X X.newBox (only3D X gs),
          X.castFloat (X.GetCenter (accumulateBounds X X.newBox (only3D X gs)))⟩,
        calls := w.calls ++ w.geometryHandles.map Call.RemoveGeometry ++
          (only3D X gs).map Call.AddGeometry ++
          [Call.SetupCamera ⟨60, accumulateBounds X X.newBox (only3D X gs),
            X.castFloat (X.GetCenter (accumulateBounds X X.newBox (only3D X gs)))⟩] } := by
  simp [SetGeometry, removeLoop_eq, addLoop_eq, SetupCamera, Window.record]

/-! ## Reading the record of calls -/

theorem newCalls_of_append {X : Externals} (w w1 : Window X) (cs : List (Call X))
    (h : w1.calls = w.calls ++ cs) : newCalls w w1 = cs := by
  simp [newCalls, h]

theorem addedGeometries_append {X : Externals} (as bs : List (Call X)) :
    addedGeometries (as ++ bs) = addedGeometries as ++ addedGeometries bs := by
  simp [addedGeometries]

theorem removedHandles_append {X : Externals} (as bs : List (Call X)) :
    removedHandles (as ++ bs) = removedHandles as ++ removedHandles bs := by
  simp [removedHandles]

theorem cameraSetups_append {X : Externals} (as bs : List (Call X)) :
    cameraSetups (as ++ bs) = cameraSetups as ++ cameraSetups bs := by
  simp [cameraSetups]

theorem pointCloudReads_append {X : Externals} (as bs : List (Call X)) :
    pointCloudReads (as ++ bs) = pointCloudReads as ++ pointCloudReads bs := by
  simp [pointCloudReads]

theorem messageBoxes_append {X : Externals} (as bs : List (Call X)) :
    messageBoxes (as ++ bs) = messageBoxes as ++ messageBoxes bs := by
  simp [messageBoxes]

theorem addedGeometries_adds {X : Externals} (gs : List X.Geometry) :
    addedGeometries (gs.map (Call.AddGeometry (X := X))) = gs := by
  induction gs with
  | nil => rfl
  | cons g gs ih => simpa [addedGeometries] using ih

theorem addedGeometries_removes {X : Externals} (hs : List GeometryHandle) :
    addedGeometries (hs.map (Call.RemoveGeometry (X := X))) = [] := by
  induction hs with
  | nil => rfl
  | cons h hs ih => simp [addedGeometries]

theorem removedHandles_removes {X : Externals} (hs : List GeometryHandle) :
    removedHandles (hs.map (Call.RemoveGeometry (X := X))) = hs := by
  induction hs with
  | nil => rfl
  | cons h hs ih => simpa [removedHandles] using ih

theorem removedHandles_adds {X : Externals} (gs : List X.Geometry) :
    removedHandles (gs.map (Call.AddGeometry (X := X))) = [] := by
  induction gs with
  | nil => rfl
  | cons g gs ih => simp [removedHandles]

theorem cameraSetups_adds {X : Externals} (gs : List X.Geometry) :
    cameraSetups (gs.map (Call.AddGeometry (X := X))) = [] := by
  induction gs with
  | nil => rfl
  | cons g gs ih => simp [cameraSetups]

theorem cameraSetups_removes {X : Externals} (hs : List GeometryHandle) :
    cameraSetups (hs.map (Call.RemoveGeometry (X := X))) = [] := by
  induction hs with
  | nil => rfl
  | cons h hs ih => simp [cameraSetups]

theorem pointCloudReads_adds {X : Externals} (gs : List X.Geometry) :
    pointCloudReads (gs.map (Call.AddGeometry (X := X))) = [] := by
  induction gs with
  | nil => rfl
  | cons g gs ih => simp [pointCloudReads]

theorem pointCloudReads_removes {X : Externals} (hs : List GeometryHandle) :
    pointCloudReads (hs.map (Call.RemoveGeometry (X := X))) = [] := by
  induction hs with
  | nil => rfl
  | cons h hs ih => simp [pointCloudReads]

theorem messageBoxes_adds {X : Externals} (gs : List X.Geometry) :
    messageBoxes (gs.map (Call.AddGeometry (X := X))) = [] := by
  induction gs with
  | nil => rfl
  | cons g gs ih => simp [messageBoxes]

theorem messageBoxes_removes {X : Externals} (hs : List GeometryHandle) :
    messageBoxes (hs.map (Call.RemoveGeometry (X := X))) = [] := by
  induction hs with
  | nil => rfl
  | cons h hs ih => simp [messageBoxes]

theorem addAll_length (X : Externals) (gs : List X.Geometry) (s : X.Scene) :
    (addAll X s gs).1.length = gs.length := by
  induction gs generalizing s with
  | nil => rfl
  | cons g gs ih => simp [addAll, ih]

/-- The calls one `SetGeometry` makes: the removals, the additions, the camera. -/
theorem SetGeometry_newCalls (X : Externals) (w : Window X) (gs : List X.Geometry) :
    newCalls w (SetGeometry X w gs) =
      w.geometryHandles.map Call.RemoveGeometry ++
        ((only3D X gs).map Call.AddGeometry ++
          [Call.SetupCamera ⟨60, accumulateBounds X X.newBox (only3D X gs),
            X.castFloat (X.GetCenter (accumulateBounds X X.newBox (only3D X gs)))⟩]) := by
  apply newCalls_of_append
  rw [SetGeometry_eq]
  simp

/-- The camera set-ups one `SetGeometry` makes: exactly one. -/
theorem cameraSetups_SetGeometry (X : Externals) (w : Window X)
    (gs : List X.Geometry) :
    cameraSetups (newCalls w (SetGeometry X w gs)) =
      [⟨60, accumulateBounds X X.newBox (only3D X gs),
        X.castFloat (X.GetCenter (accumulateBounds X X.newBox (only3D X gs)))⟩] := by
  rw [SetGeometry_newCalls, cameraSetups_append, cameraSetups_append,
    cameraSetups_removes, cameraSetups_adds]
  simp [cameraSetups]

/-! ## Claims about `SetGeometry` -/

/-- C4: `SetGeometry` registers exactly the 3D geometries. After the call the
handle list is, in input order, the list of handles the scene's `AddGeometry`
returned for the elements of a 3D type (the scene having first lost the old
handles); the geometries passed to `AddGeometry` are exactly those elements, so
no element of type RGBDImage, Image or Unspecified reaches the scene; and the
length of the handle list is the number of 3D-typed elements. -/
theorem SetGeometry_registers_exactly_3D (X : Externals) (w : Window X)
    (gs : List X.Geometry) :
    (SetGeometry X w gs).geometryHandles =
        (addAll X (removeAll X w.scene3d w.geometryHandles) (only3D X gs)).1 ∧
    (SetGeometry X w gs).scene3d =
        (addAll X (removeAll X w.scene3d w.geometryHandles) (only3D X gs)).2 ∧
    addedGeometries (newCalls w (SetGeometry X w gs)) =
        gs.filter (fun g => (X.GetGeometryType g).is3D) ∧
    (∀ g, X.GetGeometryType g = .RGBDImage ∨ X.GetGeometryType g = .Image ∨
        X.GetGeometryType g = .Unspecified →
        g ∉ addedGeometries (newCalls w (SetGeometry X w gs))) ∧
    (SetGeometry X w gs).geometryHandles.length =
        gs.countP (fun g => (X.GetGeometryType g).is3D) := by
  have hadded : addedGeometries (newCalls w (SetGeometry X w gs)) = only3D X gs := by
    rw [SetGeometry_newCalls, addedGeometries_append, addedGeometries_append,
      addedGeometries_removes, addedGeometries_adds]
    simp [addedGeometries]
  refine ⟨?_, ?_, hadded, ?_, ?_⟩
  · rw [SetGeometry_eq]
  · rw [SetGeometry_eq]
  · intro g hg hmem
    rw [hadded] at hmem
    have h3 : (X.GetGeometryType g).is3D = true := by
      simpa [only3D] using (List.mem_filter.mp hmem).2
    rcases hg with hg | hg | hg <;> simp [hg, GeometryType.is3D] at h3
  · rw [SetGeometry_eq]
    simp [addAll_length, only3D, List.countP_eq_length_filter]

/-- C5: every call of `SetGeometry` sets the camera up exactly once, as its last
call and so after every `AddGeometry`, with a field of view of 60 degrees, with
the bounds obtained from a default box by accumulating the box of each 3D-typed
input in order, and with the centre of those bounds (converted to single
precision) as centre of rotation. For an empty list, and for a list without a
3D-typed element, the bounds are the default box. -/
theorem SetGeometry_sets_up_camera_once (X : Externals) (w : Window X)
    (gs : List X.Geometry) :
    cameraSetups (newCalls w (SetGeometry X w gs)) =
        [⟨60, accumulateBounds X X.newBox (only3D X gs),
          X.castFloat (X.GetCenter (accumulateBounds X X.newBox (only3D X gs)))⟩] ∧
    (∃ before, newCalls w (SetGeometry X w gs) = before ++
        [Call.SetupCamera ⟨60, accumulateBounds X X.newBox (only3D X gs),
          X.castFloat (X.GetCenter (accumulateBounds X X.newBox (only3D X gs)))⟩] ∧
        addedGeometries before = only3D X gs ∧ cameraSetups before = []) ∧
    (SetGeometry X w gs).camera =
        some ⟨60, accumulateBounds X X.newBox (only3D X gs),
          X.castFloat (X.GetCenter (accumulateBounds X X.newBox (only3D X gs)))⟩ ∧
    accumulateBounds X X.newBox (only3D X gs) =
        (gs.filter (fun g => (X.GetGeometryType g).is3D)).foldl
          (fun b g => X.boxAdd b (X.GetAxisAlignedBoundingBox g)) X.newBox ∧
    cameraSetups (newCalls w (SetGeometry X w [])) =
        [⟨60, X.newBox, X.castFloat (X.GetCenter X.newBox)⟩] ∧
    ((∀ g ∈ gs, (X.GetGeometryType g).is3D = false) →
      cameraSetups (newCalls w (SetGeometry X w gs)) =
        [⟨60, X.newBox, X.castFloat (X.GetCenter X.newBox)⟩]) := by
  have hcam := cameraSetups_SetGeometry X w
  refine ⟨hcam gs, ?_, ?_, rfl, ?_, ?_⟩
  · refine ⟨w.geometryHandles.map Call.RemoveGeometry ++
      (only3D X gs).map Call.AddGeometry, ?_, ?_, ?_⟩
    · rw [SetGeometry_newCalls, List.append_assoc]
    · rw [addedGeometries_append, addedGeometries_removes, addedGeometries_adds]
      simp
    · rw [cameraSetups_append, cameraSetups_removes, cameraSetups_adds]
      simp
  · rw [SetGeometry_eq]
  · rw [hcam []]
    simp [only3D, accumulateBounds]
  · intro hall
    have hnone : only3D X gs = [] := by
      simp only [only3D, List.filter_eq_nil_iff]
      intro g hg
      simp [hall g hg]
    rw [hcam gs, hnone]
    simp [accumulateBounds]

/-- Evaluation: on the concrete window showing one box, setting a list that holds
a single image sets the camera up once, on the default box. -/
theorem SetGeometry_sets_up_camera_once_witness :
    (∀ g ∈ [((.Image, 3) : demo.Geometry)], (demo.GetGeometryType g).is3D = false) ∧
    cameraSetups (newCalls demoWindowBox
      (SetGeometry demo demoWindowBox [(.Image, 3)])) = [⟨60, [], (0 : Nat)⟩] :=
  ⟨by decide,
   (SetGeometry_sets_up_camera_once demo demoWindowBox [(.Image, 3)]).2.2.2.2.2 (by decide)⟩

/-! ## A scene with fresh handles -/

theorem geoms_removeAll (X : Externals) (geoms : X.Scene → List (GeometryHandle × X.Geometry))
    (hf : FreshScene X geoms) (hs : List GeometryHandle) (s : X.Scene) :
    geoms (removeAll X s hs) = (geoms s).filter (fun e => decide (e.1 ∉ hs)) := by
  induction hs generalizing s with
  | nil => simp [removeAll]
  | cons h hs ih =>
    have hstep : removeAll X s (h :: hs) = removeAll X (X.RemoveGeometry s h) hs := rfl
    rw [hstep, ih, hf.1, List.filter_filter]
    apply List.filter_congr
    intro e _
    by_cases he : e.1 = h <;> simp [he]

theorem geoms_removeAll_own (X : Externals)
    (geoms : X.Scene → List (GeometryHandle × X.Geometry)) (hf : FreshScene X geoms)
    (s : X.Scene) : geoms (removeAll X s ((geoms s).map Prod.fst)) = [] := by
  rw [geoms_removeAll X geoms hf, List.filter_eq_nil_iff]
  intro e he
  have : e.1 ∈ (geoms s).map Prod.fst := List.mem_map_of_mem Prod.fst he
  simp [this]

theorem geoms_addAll (X : Externals) (geoms : X.Scene → List (GeometryHandle × X.Geometry))
    (hf : FreshScene X geoms) (gs : List X.Geometry) (s : X.Scene) :
    geoms (addAll X s gs).2 = geoms s ++ List.zip (addAll X s gs).1 gs := by
  induction gs generalizing s with
  | nil => simp [addAll]
  | cons g gs ih =>
    simp only [addAll]
    rw [ih, (hf.2 s g).2]
    simp

theorem addAll_fresh (X : Externals) (geoms : X.Scene → List (GeometryHandle × X.Geometry))
    (hf : FreshScene X geoms) (gs : List X.Geometry) (s : X.Scene) :
    (∀ h ∈ (addAll X s gs).1, h ∉ (geoms s).map Prod.fst) ∧ (addAll X s gs).1.Nodup := by
  induction gs generalizing s with
  | nil => simp [addAll]
  | cons g gs ih =>
    obtain ⟨hnew, hnodup⟩ := ih (X.AddGeometry s g).2
    rw [(hf.2 s g).2] at hnew
    simp only [addAll]
    refine ⟨?_, ?_⟩
    · intro h hh
      rcases List.mem_cons.mp hh with rfl | hh
      · exact (hf.2 s g).1
      · intro hmem
        exact hnew h hh (by simp [List.mem_append, hmem])
    · refine List.nodup_cons.mpr ⟨?_, hnodup⟩
      intro hmem
      exact hnew _ hmem (by simp)

/-- One `SetGeometry` on a scene with fresh handles that holds exactly the
geometries of the window: afterwards it holds exactly the 3D inputs, each under
its handle, and the handles are pairwise distinct. -/
theorem SetGeometry_fresh (X : Externals)
    (geoms : X.Scene → List (GeometryHandle × X.Geometry)) (hf : FreshScene X geoms)
    (w : Window X) (gs : List X.Geometry)
    (hinv : (geoms w.scene3d).map Prod.fst = w.geometryHandles) :
    geoms (SetGeometry X w gs).scene3d =
        List.zip (SetGeometry X w gs).geometryHandles (only3D X gs) ∧
    (geoms (SetGeometry X w gs).scene3d).map Prod.fst = (SetGeometry X w gs).geometryHandles ∧
    (geoms (SetGeometry X w gs).scene3d).map Prod.snd = only3D X gs ∧
    (SetGeometry X w gs).geometryHandles.Nodup := by
  have hzip : geoms (SetGeometry X w gs).scene3d =
      List.zip (SetGeometry X w gs).geometryHandles (only3D X gs) := by
    rw [SetGeometry_eq]
    simp only
    rw [geoms_addAll X geoms hf, ← hinv, geoms_removeAll_own X geoms hf]
    simp
  have hlen : (SetGeometry X w gs).geometryHandles.length = (only3D X gs).length := by
    rw [SetGeometry_eq]
    simp [addAll_length]
  refine ⟨hzip, ?_, ?_, ?_⟩
  · rw [hzip]
    exact List.map_fst_zip _ _ (le_of_eq hlen)
  · rw [hzip]
    exact List.map_snd_zip _ _ (le_of_eq hlen.symm)
  · rw [SetGeometry_eq]
    exact (addAll_fresh X geoms hf _ _).2

theorem SetGeometrySeq_snoc (X : Externals) (w : Window X) (gss : List (List X.Geometry))
    (gs : List X.Geometry) :
    SetGeometrySeq X w (gss ++ [gs]) = SetGeometry X (SetGeometrySeq X w gss) gs := by
  simp [SetGeometrySeq, List.foldl_append]

theorem SetGeometrySeq_fresh (X : Externals)
    (geoms : X.Scene → List (GeometryHandle × X.Geometry)) (hf : FreshScene X geoms)
    (gss : List (List X.Geometry)) (w : Window X)
    (hinv : (geoms w.scene3d).map Prod.fst = w.geometryHandles) :
    (geoms (SetGeometrySeq X w gss).scene3d).map Prod.fst =
      (SetGeometrySeq X w gss).geometryHandles := by
  induction gss generalizing w with
  | nil => simpa [SetGeometrySeq] using hinv
  | cons gs gss ih =>
    have hstep : SetGeometrySeq X w (gs :: gss) =
        SetGeometrySeq X (SetGeometry X w gs) gss := rfl
    rw [hstep]
    exact ih _ (SetGeometry_fresh X geoms hf w gs hinv).2.1

/-- The concrete scene returns fresh handles. -/
theorem demo_fresh : FreshScene demo demoGeoms := by
  refine ⟨fun s h => rfl, fun s g => ⟨?_, rfl⟩⟩
  have hle : ∀ (l : List Nat) (n : Nat), n ∈ l → n ≤ l.sum := by
    intro l
    induction l with
    | nil => simp
    | cons a l ih =>
      intro n hn
      rcases List.mem_cons.mp hn with rfl | hn
      · simp
      · have := ih n hn
        simp only [List.sum_cons]
        omega
  intro hmem
  have := hle _ _ hmem
  simp only [demo, demoGeoms] at this
  omega

/-- Evaluation: on the concrete window showing one box, an image is not passed to
the scene when it is set together with a cloud. -/
theorem SetGeometry_registers_exactly_3D_witness :
    (demo.GetGeometryType (.Image, 3) = .RGBDImage ∨
      demo.GetGeometryType (.Image, 3) = .Image ∨
      demo.GetGeometryType (.Image, 3) = .Unspecified) ∧
    ((.Image, 3) : demo.Geometry) ∉ addedGeometries (newCalls demoWindowBox
      (SetGeometry demo demoWindowBox [(.Image, 3), (.PointCloud, 4)])) :=
  ⟨by decide,
   (SetGeometry_registers_exactly_3D demo demoWindowBox
      [(.Image, 3), (.PointCloud, 4)]).2.2.2.1 (.Image, 3) (by decide)⟩

/-- C9: `SetGeometry` replaces rather than accumulates. Each call first calls
`RemoveGeometry` once for every handle of the list, in order, and nothing after
that is a removal; the list is cleared before anything is added, so it ends as
the handles of this call alone. Hence after any run of `SetGeometry` calls the
list holds exactly the handles the last call added. On a scene with fresh
handles that held exactly the geometries of the window at the start, the scene
then holds exactly the 3D geometries of the last call, each under its handle. -/
theorem SetGeometry_replaces (X : Externals) (w : Window X)
    (gss : List (List X.Geometry)) (gs : List X.Geometry) :
    (∃ rest, newCalls w (SetGeometry X w gs) =
        w.geometryHandles.map Call.RemoveGeometry ++ rest ∧ removedHandles rest = []) ∧
    removedHandles (newCalls w (SetGeometry X w gs)) = w.geometryHandles ∧
    (SetGeometry X w gs).geometryHandles =
        (addAll X (removeAll X w.scene3d w.geometryHandles) (only3D X gs)).1 ∧
    (SetGeometrySeq X w (gss ++ [gs])).geometryHandles =
        (addAll X (removeAll X (SetGeometrySeq X w gss).scene3d
          (SetGeometrySeq X w gss).geometryHandles) (only3D X gs)).1 ∧
    (SetGeometrySeq X w (gss ++ [gs])).geometryHandles.length = (only3D X gs).length ∧
    (∀ geoms : X.Scene → List (GeometryHandle × X.Geometry), FreshScene X geoms →
      (geoms w.scene3d).map Prod.fst = w.geometryHandles →
      geoms (SetGeometrySeq X w (gss ++ [gs])).scene3d =
          List.zip (SetGeometrySeq X w (gss ++ [gs])).geometryHandles (only3D X gs) ∧
      (geoms (SetGeometrySeq X w (gss ++ [gs])).scene3d).map Prod.snd = only3D X gs ∧
      (SetGeometrySeq X w (gss ++ [gs])).geometryHandles.Nodup) := by
  refine ⟨⟨_, SetGeometry_newCalls X w gs, ?_⟩, ?_, ?_, ?_, ?_, ?_⟩
  · rw [removedHandles_append, removedHandles_adds]
    simp [removedHandles]
  · rw [SetGeometry_newCalls, removedHandles_append, removedHandles_append,
      removedHandles_removes, removedHandles_adds]
    simp [removedHandles]
  · rw [SetGeometry_eq]
  · rw [SetGeometrySeq_snoc, SetGeometry_eq]
  · rw [SetGeometrySeq_snoc, SetGeometry_eq]
    simp [addAll_length]
  · intro geoms hf hinv
    rw [SetGeometrySeq_snoc]
    have h := SetGeometry_fresh X geoms hf (SetGeometrySeq X w gss) gs
      (SetGeometrySeq_fresh X geoms hf gss w hinv)
    exact ⟨h.1, h.2.2.1, h.2.2.2⟩

/-- Evaluation: on the concrete window showing one box, after setting two
boxes and then an image, a cloud and an octree, the scene holds the cloud and
the octree and nothing else. -/
theorem SetGeometry_replaces_witness :
    FreshScene demo demoGeoms ∧
    (demoGeoms demoWindowBox.scene3d).map Prod.fst = demoWindowBox.geometryHandles ∧
    (demoGeoms (SetGeometrySeq demo demoWindowBox
      ([[(.OrientedBoundingBox, 1), (.AxisAlignedBoundingBox, 2)]] ++
        [[(.Image, 3), (.PointCloud, 4), (.Octree, 9)]])).scene3d).map Prod.snd =
      only3D demo [(.Image, 3), (.PointCloud, 4), (.Octree, 9)] :=
  ⟨demo_fresh, by decide,
   ((SetGeometry_replaces demo demoWindowBox
      [[(.OrientedBoundingBox, 1), (.AxisAlignedBoundingBox, 2)]]
      [(.Image, 3), (.PointCloud, 4), (.Octree, 9)]).2.2.2.2.2
        demoGeoms demo_fresh (by decide)).2.1⟩

/-! ## The outcomes of `LoadGeometry` -/

theorem tryCatch_ok {ε α : Type} (a : α) (handle : ε → Except ε α) :
    MonadExceptOf.tryCatch (Except.ok a) handle = Except.ok a := rfl

theorem tryCatch_error {ε α : Type} (e : ε) (handle : ε → Except ε α) :
    MonadExceptOf.tryCatch (Except.error e : Except ε α) handle = handle e := rfl

/-- The mesh reader succeeds with a triangle: the mesh is set, after its normals. -/
theorem LoadGeometry_of_mesh (X : Externals) (w : Window X) (path : String)
    (m : X.TriangleMesh) (hm : keptMesh X path = some m) :
    LoadGeometry X w path = .ok (true, SetGeometry X
      { w with calls := w.calls ++ [.ReadTriangleMesh path, .ComputeVertexNormals] }
      [X.meshAsGeometry (X.ComputeVertexNormals m)]) := by
  unfold keptMesh meshRead at hm
  unfold LoadGeometry
  rcases hr : X.ReadTriangleMesh path X.newTriangleMesh with e | ⟨b, m1⟩
  · simp [hr, readerValue] at hm
  · cases b
    · simp [hr, readerValue] at hm
    · by_cases ht : X.trianglesSize m1 = 0
      · simp [hr, readerValue, ht] at hm
      · simp [hr, readerValue, ht] at hm
        subst hm
        simp [hr, ht, tryCatch, tryCatchThe, tryCatch_ok, bind, Except.bind, pure, Except.pure,
          Window.record]

/-- No mesh is kept and the cloud reader succeeds: the cloud is set. -/
theorem LoadGeometry_of_cloud (X : Externals) (w : Window X) (path : String)
    (c : X.PointCloud) (hm : keptMesh X path = none)
    (hc : readerValue (cloudRead X path) = some c) :
    LoadGeometry X w path = .ok (true, SetGeometry X
      { w with calls := w.calls ++ [.ReadTriangleMesh path, meshWarning X path,
          .ReadPointCloud path, .LogInfof "Successfully read %s" [path], .NormalizeNormals] }
      [X.cloudAsGeometry (X.NormalizeNormals c)]) := by
  unfold keptMesh at hm
  unfold meshWarning
  unfold meshRead at hm ⊢
  unfold cloudRead at hc
  unfold LoadGeometry
  rcases hrc : X.ReadPointCloud path X.newPointCloud with e | ⟨b, c1⟩
  · simp [hrc, readerValue] at hc
  · cases b
    · simp [hrc, readerValue] at hc
    · simp [hrc, readerValue] at hc
      subst hc
      rcases hr : X.ReadTriangleMesh path X.newTriangleMesh with e | ⟨b, m1⟩
      · simp [hr, hrc, tryCatch, tryCatchThe, tryCatch_ok, tryCatch_error, bind, Except.bind,
          pure, Except.pure, Window.record, readerSucceeded]
      · cases b
        · simp [hr, hrc, tryCatch, tryCatchThe, tryCatch_ok, tryCatch_error, bind, Except.bind,
            pure, Except.pure, Window.record, readerSucceeded]
        · by_cases ht : X.trianglesSize m1 = 0
          · simp [hr, hrc, ht, tryCatch, tryCatchThe, tryCatch_ok, tryCatch_error, bind,
              Except.bind, pure, Except.pure, Window.record, readerSucceeded]
          · simp [hr, readerValue, ht] at hm

/-- No mesh is kept and the cloud reader fails: nothing is set. -/
theorem LoadGeometry_of_none (X : Externals) (w : Window X) (path : String)
    (hm : keptMesh X path = none) (hc : readerValue (cloudRead X path) = none) :
    LoadGeometry X w path = .ok (false,
      { w with calls := w.calls ++ [.ReadTriangleMesh path, meshWarning X path,
          .ReadPointCloud path, .LogWarning "Failed to read points %s" [path]] }) := by
  unfold keptMesh at hm
  unfold meshWarning
  unfold meshRead at hm ⊢
  unfold cloudRead at hc
  unfold LoadGeometry
  have hcloud : MonadExceptOf.tryCatch (X.ReadPointCloud path X.newPointCloud)
      (fun (_ : X.Exn) => Except.ok (false, X.newPointCloud)) = Except.ok (false,
        (match X.ReadPointCloud path X.newPointCloud with
          | .ok v => v.2
          | .error _ => X.newPointCloud)) := by
    rcases hrc : X.ReadPointCloud path X.newPointCloud with e | ⟨b, c1⟩
    · rfl
    · cases b
      · rfl
      · simp [hrc, readerValue] at hc
  rcases hr : X.ReadTriangleMesh path X.newTriangleMesh with e | ⟨b, m1⟩
  · simp [hr, hcloud, tryCatch, tryCatchThe, tryCatch_error, bind, Except.bind,
      pure, Except.pure, Window.record, readerSucceeded]
  · cases b
    · simp [hr, hcloud, tryCatch, tryCatchThe, tryCatch_ok, bind, Except.bind,
        pure, Except.pure, Window.record, readerSucceeded]
    · by_cases ht : X.trianglesSize m1 = 0
      · simp [hr, hcloud, ht, tryCatch, tryCatchThe, tryCatch_ok, bind, Except.bind,
          pure, Except.pure, Window.record, readerSucceeded]
      · simp [hr, readerValue, ht] at hm

theorem readerValue_eq_some_iff {ε α : Type} (r : Except ε (Bool × α)) (a : α) :
    readerValue r = some a ↔ r = .ok (true, a) := by
  rcases r with e | ⟨b, a1⟩
  · simp [readerValue]
  · cases b <;> simp [readerValue]

theorem readerValue_eq_none_iff {ε α : Type} (r : Except ε (Bool × α)) :
    readerValue r = none ↔ ((∃ e, r = .error e) ∨ (∃ a, r = .ok (false, a))) := by
  rcases r with e | ⟨b, a1⟩
  · simp [readerValue]
  · cases b <;> simp [readerValue]

theorem readerSucceeded_eq_true_iff {ε α : Type} (r : Except ε (Bool × α)) :
    readerSucceeded r = true ↔ ∃ a, r = .ok (true, a) := by
  rcases r with e | ⟨b, a1⟩
  · simp [readerSucceeded]
  · cases b <;> simp [readerSucceeded]

theorem keptMesh_eq_some_iff (X : Externals) (path : String) (m : X.TriangleMesh) :
    keptMesh X path = some m ↔ meshRead X path = .ok (true, m) ∧ X.trianglesSize m ≠ 0 := by
  unfold keptMesh
  rcases hr : meshRead X path with e | ⟨b, m1⟩
  · simp [readerValue]
  · cases b
    · simp [readerValue]
    · by_cases ht : X.trianglesSize m1 = 0
      · simp only [readerValue, ht, if_true]
        constructor
        · intro h
          cases h
        · rintro ⟨h1, h2⟩
          simp only [Except.ok.injEq, Prod.mk.injEq, true_and] at h1
          subst h1
          exact absurd ht h2
      · simp only [readerValue, ht, if_false]
        constructor
        · intro h
          simp only [Option.some.injEq] at h
          subst h
          exact ⟨rfl, ht⟩
        · rintro ⟨h1, _⟩
          simp only [Except.ok.injEq, Prod.mk.injEq, true_and] at h1
          rw [h1]

theorem keptMesh_eq_none_iff (X : Externals) (path : String) :
    keptMesh X path = none ↔
      ((∃ e, meshRead X path = .error e) ∨ (∃ m, meshRead X path = .ok (false, m)) ∨
        (∃ m, meshRead X path = .ok (true, m) ∧ X.trianglesSize m = 0)) := by
  unfold keptMesh
  rcases hr : meshRead X path with e | ⟨b, m1⟩
  · simp [readerValue]
  · cases b
    · simp [readerValue]
    · by_cases ht : X.trianglesSize m1 = 0
      · simp [readerValue, ht]
      · simp only [readerValue, ht, if_false]
        constructor
        · intro h
          cases h
        · rintro (⟨e, h⟩ | ⟨m, h⟩ | ⟨m, h1, h2⟩)
          · cases h
          · simp at h
          · simp only [Except.ok.injEq, Prod.mk.injEq, true_and] at h1
            subst h1
            exact absurd h2 ht

/-- The warning about the mesh is a call to `LogWarning`. -/
theorem meshWarning_isLog (X : Externals) (path : String) :
    ∃ format args, meshWarning X path = Call.LogWarning format args := by
  unfold meshWarning
  split
  · exact ⟨_, _, rfl⟩
  · exact ⟨_, _, rfl⟩

/-- The three outcomes of `LoadGeometry`, which are all it can do. -/
theorem LoadGeometry_cases (X : Externals) (w : Window X) (path : String) :
    (∃ m, keptMesh X path = some m ∧
      LoadGeometry X w path = .ok (true, SetGeometry X
        { w with calls := w.calls ++ [.ReadTriangleMesh path, .ComputeVertexNormals] }
        [X.meshAsGeometry (X.ComputeVertexNormals m)])) ∨
    (∃ c, keptMesh X path = none ∧ readerValue (cloudRead X path) = some c ∧
      LoadGeometry X w path = .ok (true, SetGeometry X
        { w with calls := w.calls ++ [.ReadTriangleMesh path,
            meshWarning X path, .ReadPointCloud path,
            .LogInfof "Successfully read %s" [path], .NormalizeNormals] }
        [X.cloudAsGeometry (X.NormalizeNormals c)])) ∨
    (keptMesh X path = none ∧ readerValue (cloudRead X path) = none ∧
      LoadGeometry X w path = .ok (false,
        { w with calls := w.calls ++ [.ReadTriangleMesh path,
            meshWarning X path, .ReadPointCloud path,
            .LogWarning "Failed to read points %s" [path]] })) := by
  cases hm : keptMesh X path with
  | some m => exact Or.inl ⟨m, rfl, LoadGeometry_of_mesh X w path m hm⟩
  | none =>
    cases hc : readerValue (cloudRead X path) with
    | some c => exact Or.inr (Or.inl ⟨c, rfl, rfl, LoadGeometry_of_cloud X w path c hm hc⟩)
    | none => exact Or.inr (Or.inr ⟨rfl, rfl, LoadGeometry_of_none X w path hm hc⟩)

theorem messageBoxes_setGeometryCalls (X : Externals) (hs : List GeometryHandle)
    (gs : List X.Geometry) : messageBoxes (setGeometryCalls X hs gs) = [] := by
  rw [setGeometryCalls, messageBoxes_append, messageBoxes_append, messageBoxes_removes,
    messageBoxes_adds]
  simp [messageBoxes]

theorem pointCloudReads_setGeometryCalls (X : Externals) (hs : List GeometryHandle)
    (gs : List X.Geometry) : pointCloudReads (setGeometryCalls X hs gs) = [] := by
  rw [setGeometryCalls, pointCloudReads_append, pointCloudReads_append,
    pointCloudReads_removes, pointCloudReads_adds]
  simp [pointCloudReads]

/-- The record of calls after a `SetGeometry` that follows some recorded calls. -/
theorem SetGeometry_after_calls (X : Externals) (w : Window X) (cs : List (Call X))
    (gs : List X.Geometry) :
    (SetGeometry X { w with calls := w.calls ++ cs } gs).calls =
      w.calls ++ (cs ++ setGeometryCalls X w.geometryHandles gs) := by
  rw [SetGeometry_eq]
  simp [setGeometryCalls]

theorem newCalls_SetGeometry_after (X : Externals) (w : Window X) (cs : List (Call X))
    (gs : List X.Geometry) :
    newCalls w (SetGeometry X { w with calls := w.calls ++ cs } gs) =
      cs ++ setGeometryCalls X w.geometryHandles gs :=
  newCalls_of_append _ _ _ (SetGeometry_after_calls X w cs gs)

/-- What `LoadGeometry` leaves alone, whatever the readers do: the title, the
dialog, the message box, the light settings and the closed flag; and it only
adds to the record of calls, without showing a message box. -/
theorem LoadGeometry_frame (X : Externals) (w : Window X) (path : String) :
    ∃ b w1 cs, LoadGeometry X w path = .ok (b, w1) ∧ w1.calls = w.calls ++ cs ∧
      messageBoxes cs = [] ∧ w1.title = w.title ∧ w1.dialog = w.dialog ∧
      w1.messageBox = w.messageBox ∧ w1.lightSettings = w.lightSettings ∧
      w1.closed = w.closed := by
  obtain ⟨fmt, fargs, hw⟩ := meshWarning_isLog X path
  rcases LoadGeometry_cases X w path with ⟨m, _, h⟩ | ⟨c, _, _, h⟩ | ⟨_, _, h⟩
  · refine ⟨true, _, _, h, SetGeometry_after_calls X w _ _, ?_, ?_⟩
    · rw [messageBoxes_append, messageBoxes_setGeometryCalls]
      simp [messageBoxes, hw]
    · rw [SetGeometry_eq]
      simp
  · refine ⟨true, _, _, h, SetGeometry_after_calls X w _ _, ?_, ?_⟩
    · rw [messageBoxes_append, messageBoxes_setGeometryCalls]
      simp [messageBoxes, hw]
    · rw [SetGeometry_eq]
      simp
  · exact ⟨false, _, _, h, rfl, by simp [messageBoxes, hw], rfl, rfl, rfl, rfl, rfl⟩

/-! ## Claims about `LoadGeometry` -/

/-- C1: for every path `LoadGeometry` returns, and the flag it returns is true
exactly when the triangle-mesh reader succeeds on the path with a mesh of at
least one triangle, or the point-cloud reader succeeds on the path; otherwise
the flag is false. -/
theorem LoadGeometry_returns_true_iff (X : Externals) (w : Window X) (path : String) :
    ∃ b w1, LoadGeometry X w path = .ok (b, w1) ∧
      (b = true ↔
        ((∃ m, meshRead X path = .ok (true, m) ∧ 1 ≤ X.trianglesSize m) ∨
          (∃ c, cloudRead X path = .ok (true, c)))) ∧
      (b = false ↔
        ¬ ((∃ m, meshRead X path = .ok (true, m) ∧ 1 ≤ X.trianglesSize m) ∨
          (∃ c, cloudRead X path = .ok (true, c)))) := by
  rcases LoadGeometry_cases X w path with ⟨m, hm, h⟩ | ⟨c, _, hc, h⟩ | ⟨hm, hc, h⟩
  · have hk := (keptMesh_eq_some_iff X path m).mp hm
    have hyes : (∃ m, meshRead X path = .ok (true, m) ∧ 1 ≤ X.trianglesSize m) ∨
        (∃ c, cloudRead X path = .ok (true, c)) :=
      Or.inl ⟨m, hk.1, Nat.one_le_iff_ne_zero.mpr hk.2⟩
    exact ⟨true, _, h, by simp [hyes], by simp [hyes]⟩
  · have hyes : (∃ m, meshRead X path = .ok (true, m) ∧ 1 ≤ X.trianglesSize m) ∨
        (∃ c, cloudRead X path = .ok (true, c)) :=
      Or.inr ⟨c, (readerValue_eq_some_iff _ c).mp hc⟩
    exact ⟨true, _, h, by simp [hyes], by simp [hyes]⟩
  · have hno : ¬ ((∃ m, meshRead X path = .ok (true, m) ∧ 1 ≤ X.trianglesSize m) ∨
        (∃ c, cloudRead X path = .ok (true, c))) := by
      rintro (⟨m, h1, h2⟩ | ⟨c, h1⟩)
      · have : keptMesh X path = some m :=
          (keptMesh_eq_some_iff X path m).mpr ⟨h1, Nat.one_le_iff_ne_zero.mp h2⟩
        rw [hm] at this
        cases this
      · have : readerValue (cloudRead X path) = some c :=
          (readerValue_eq_some_iff _ c).mpr h1
        rw [hc] at this
        cases this
    exact ⟨false, _, h, by simp [hno], by simp [hno]⟩

/-- C2: `LoadGeometry` prefers the mesh and falls back to the point cloud. When
the mesh reader succeeds with at least one triangle, the point-cloud reader is
not called and `SetGeometry` is called with the one-element list of that mesh,
its vertex normals computed. When the mesh reader succeeds with a mesh of 0
triangles, the mesh is dropped with a warning and the point-cloud reader is
called on the path, once, whatever it then returns: the new calls start with
the mesh read, the warning and the point-cloud read. If that read succeeds,
`SetGeometry` is called with the one-element list of that cloud (its normals
normalised); if it throws or returns false, nothing is set and the flag is
false, so the mesh is never given to `SetGeometry`. -/
theorem LoadGeometry_prefers_mesh (X : Externals) (w : Window X) (path : String) :
    (∀ m, meshRead X path = .ok (true, m) → 1 ≤ X.trianglesSize m →
      LoadGeometry X w path = .ok (true, SetGeometry X
        { w with calls := w.calls ++ [.ReadTriangleMesh path, .ComputeVertexNormals] }
        [X.meshAsGeometry (X.ComputeVertexNormals m)]) ∧
      pointCloudReads (newCalls w (SetGeometry X
        { w with calls := w.calls ++ [.ReadTriangleMesh path, .ComputeVertexNormals] }
        [X.meshAsGeometry (X.ComputeVertexNormals m)])) = []) ∧
    (∀ m, meshRead X path = .ok (true, m) → X.trianglesSize m = 0 →
      (∃ b w1, LoadGeometry X w path = .ok (b, w1) ∧
        pointCloudReads (newCalls w w1) = [path] ∧
        (newCalls w w1).take 3 = [.ReadTriangleMesh path,
          .LogWarning "Contains 0 triangles, will read as point cloud" [],
          .ReadPointCloud path]) ∧
      (∀ c, cloudRead X path = .ok (true, c) →
        LoadGeometry X w path = .ok (true, SetGeometry X
          { w with calls := w.calls ++ [.ReadTriangleMesh path,
              .LogWarning "Contains 0 triangles, will read as point cloud" [],
              .ReadPointCloud path, .LogInfof "Successfully read %s" [path],
              .NormalizeNormals] }
          [X.cloudAsGeometry (X.NormalizeNormals c)]) ∧
        pointCloudReads (newCalls w (SetGeometry X
          { w with calls := w.calls ++ [.ReadTriangleMesh path,
              .LogWarning "Contains 0 triangles, will read as point cloud" [],
              .ReadPointCloud path, .LogInfof "Successfully read %s" [path],
              .NormalizeNormals] }
          [X.cloudAsGeometry (X.NormalizeNormals c)])) = [path]) ∧
      (((∃ e, cloudRead X path = .error e) ∨ (∃ c, cloudRead X path = .ok (false, c))) →
        LoadGeometry X w path = .ok (false,
          { w with calls := w.calls ++ [.ReadTriangleMesh path,
              .LogWarning "Contains 0 triangles, will read as point cloud" [],
              .ReadPointCloud path, .LogWarning "Failed to read points %s" [path]] }))) := by
  constructor
  · intro m hm ht
    refine ⟨LoadGeometry_of_mesh X w path m
      ((keptMesh_eq_some_iff X path m).mpr ⟨hm, Nat.one_le_iff_ne_zero.mp ht⟩), ?_⟩
    rw [newCalls_SetGeometry_after, pointCloudReads_append, pointCloudReads_setGeometryCalls]
    simp [pointCloudReads]
  · intro m hm ht
    have hk : keptMesh X path = none :=
      (keptMesh_eq_none_iff X path).mpr (Or.inr (Or.inr ⟨m, hm, ht⟩))
    have hw : meshWarning X path =
        Call.LogWarning "Contains 0 triangles, will read as point cloud" [] := by
      simp [meshWarning, hm, readerSucceeded]
    have hyes : ∀ c, cloudRead X path = .ok (true, c) →
        LoadGeometry X w path = .ok (true, SetGeometry X
          { w with calls := w.calls ++ [.ReadTriangleMesh path,
              .LogWarning "Contains 0 triangles, will read as point cloud" [],
              .ReadPointCloud path, .LogInfof "Successfully read %s" [path],
              .NormalizeNormals] }
          [X.cloudAsGeometry (X.NormalizeNormals c)]) := by
      intro c hc
      have h := LoadGeometry_of_cloud X w path c hk ((readerValue_eq_some_iff _ c).mpr hc)
      rw [hw] at h
      exact h
    have hno : readerValue (cloudRead X path) = none →
        LoadGeometry X w path = .ok (false,
          { w with calls := w.calls ++ [.ReadTriangleMesh path,
              .LogWarning "Contains 0 triangles, will read as point cloud" [],
              .ReadPointCloud path, .LogWarning "Failed to read points %s" [path]] }) := by
      intro hc
      have h := LoadGeometry_of_none X w path hk hc
      rw [hw] at h
      exact h
    have hreads : ∀ c, pointCloudReads (newCalls w (SetGeometry X
          { w with calls := w.calls ++ [.ReadTriangleMesh path,
              .LogWarning "Contains 0 triangles, will read as point cloud" [],
              .ReadPointCloud path, .LogInfof "Successfully read %s" [path],
              .NormalizeNormals] }
          [X.cloudAsGeometry (X.NormalizeNormals c)])) = [path] := by
      intro c
      rw [newCalls_SetGeometry_after, pointCloudReads_append,
        pointCloudReads_setGeometryCalls]
      simp [pointCloudReads]
    refine ⟨?_, fun c hc => ⟨hyes c hc, hreads c⟩,
      fun hfail => hno ((readerValue_eq_none_iff _).mpr hfail)⟩
    cases hc : readerValue (cloudRead X path) with
    | some c =>
      refine ⟨true, _, hyes c ((readerValue_eq_some_iff _ c).mp hc), hreads c, ?_⟩
      rw [newCalls_SetGeometry_after]
      rfl
    | none =>
      refine ⟨false, _, hno hc, ?_, ?_⟩
      · rw [newCalls_of_append w _ _ rfl]
        simp [pointCloudReads]
      · rw [newCalls_of_append w _ _ rfl]
        rfl

/-- Evaluation on the concrete collaborators, where the window shows one box:
`mesh.ply` holds two triangles and loading it sets the mesh; `points.ply` reads
as a mesh without triangles and as a cloud, and loading it sets the cloud after
one point-cloud read; `empty.ply` reads as a mesh without triangles and not as
a cloud, and loading it still reads it as a cloud once, then sets nothing. -/
theorem LoadGeometry_prefers_mesh_witness :
    (meshRead demo "mesh.ply" = .ok (true, (2 : Nat)) ∧ 1 ≤ demo.trianglesSize (2 : Nat) ∧
      LoadGeometry demo demoWindowBox "mesh.ply" = .ok (true, SetGeometry demo
        { demoWindowBox with calls := demoWindowBox.calls ++
            [.ReadTriangleMesh "mesh.ply", .ComputeVertexNormals] }
        [demo.meshAsGeometry (demo.ComputeVertexNormals (2 : Nat))])) ∧
    (meshRead demo "points.ply" = .ok (true, (0 : Nat)) ∧ demo.trianglesSize (0 : Nat) = 0 ∧
      cloudRead demo "points.ply" = .ok (true, (7 : Nat)) ∧
      LoadGeometry demo demoWindowBox "points.ply" = .ok (true, SetGeometry demo
        { demoWindowBox with calls := demoWindowBox.calls ++
            [.ReadTriangleMesh "points.ply",
             .LogWarning "Contains 0 triangles, will read as point cloud" [],
             .ReadPointCloud "points.ply", .LogInfof "Successfully read %s" ["points.ply"],
             .NormalizeNormals] }
        [demo.cloudAsGeometry (demo.NormalizeNormals (7 : Nat))])) ∧
    (meshRead demo "empty.ply" = .ok (true, (0 : Nat)) ∧
      ((∃ e, cloudRead demo "empty.ply" = .error e) ∨
        (∃ c, cloudRead demo "empty.ply" = .ok (false, c))) ∧
      LoadGeometry demo demoWindowBox "empty.ply" = .ok (false,
        { demoWindowBox with calls := demoWindowBox.calls ++
            [.ReadTriangleMesh "empty.ply",
             .LogWarning "Contains 0 triangles, will read as point cloud" [],
             .ReadPointCloud "empty.ply",
             .LogWarning "Failed to read points %s" ["empty.ply"]] }) ∧
      ∃ b w1, LoadGeometry demo demoWindowBox "empty.ply" = .ok (b, w1) ∧
        pointCloudReads (newCalls demoWindowBox w1) = ["empty.ply"]) :=
  ⟨⟨rfl, by decide,
     ((LoadGeometry_prefers_mesh demo demoWindowBox "mesh.ply").1 (2 : Nat) rfl
       (by decide)).1⟩,
   ⟨rfl, rfl, rfl,
     (((LoadGeometry_prefers_mesh demo demoWindowBox "points.ply").2 (0 : Nat) rfl rfl).2.1
       (7 : Nat) rfl).1⟩,
   ⟨rfl, Or.inr ⟨(0 : Nat), rfl⟩,
     ((LoadGeometry_prefers_mesh demo demoWindowBox "empty.ply").2 (0 : Nat) rfl rfl).2.2
       (Or.inr ⟨(0 : Nat), rfl⟩),
     (((LoadGeometry_prefers_mesh demo demoWindowBox "empty.ply").2 (0 : Nat) rfl rfl).1).imp
       (fun _ hb => hb.imp (fun _ hw1 => ⟨hw1.1, hw1.2.1⟩))⟩⟩

/-- C3: a failure of the mesh reader never aborts `LoadGeometry`. For every path
`LoadGeometry` returns normally, whatever the readers return or throw. If the
mesh reader throws or returns false, the point-cloud reader is still called on
the path; if then the point-cloud reader throws or returns false as well, the
flag returned is false. -/
theorem LoadGeometry_survives_reader_failure (X : Externals) (w : Window X)
    (path : String) :
    ∃ b w1, LoadGeometry X w path = .ok (b, w1) ∧
      (((∃ e, meshRead X path = .error e) ∨ (∃ m, meshRead X path = .ok (false, m))) →
        pointCloudReads (newCalls w w1) = [path] ∧
        (((∃ e, cloudRead X path = .error e) ∨ (∃ c, cloudRead X path = .ok (false, c))) →
          b = false)) := by
  obtain ⟨fmt, fargs, hw⟩ := meshWarning_isLog X path
  rcases LoadGeometry_cases X w path with ⟨m, hm, h⟩ | ⟨c, _, hc, h⟩ | ⟨_, _, h⟩
  · refine ⟨true, _, h, ?_⟩
    intro hfail
    have hk := ((keptMesh_eq_some_iff X path m).mp hm).1
    rcases hfail with ⟨e, he⟩ | ⟨m1, hm1⟩
    · rw [he] at hk
      cases hk
    · rw [hm1] at hk
      simp at hk
  · refine ⟨true, _, h, ?_⟩
    intro _
    constructor
    · rw [newCalls_SetGeometry_after, pointCloudReads_append,
        pointCloudReads_setGeometryCalls]
      simp [pointCloudReads, hw]
    · intro hfail
      have hnone := (readerValue_eq_none_iff (cloudRead X path)).mpr hfail
      rw [hc] at hnone
      cases hnone
  · refine ⟨false, _, h, ?_⟩
    intro _
    refine ⟨?_, fun _ => rfl⟩
    rw [newCalls_of_append w _ _ rfl]
    simp [pointCloudReads, hw]

/-- Evaluation: on the concrete collaborators both readers throw on
`broken.ply`; loading it returns false, after the point-cloud reader was tried. -/
theorem LoadGeometry_survives_reader_failure_witness :
    ((∃ e, meshRead demo "broken.ply" = .error e) ∨
      (∃ m, meshRead demo "broken.ply" = .ok (false, m))) ∧
    ((∃ e, cloudRead demo "broken.ply" = .error e) ∨
      (∃ c, cloudRead demo "broken.ply" = .ok (false, c))) ∧
    ∃ w1, LoadGeometry demo demoWindow "broken.ply" = .ok (false, w1) ∧
      pointCloudReads (newCalls demoWindow w1) = ["broken.ply"] := by
  have hmesh : (∃ e, meshRead demo "broken.ply" = .error e) ∨
      (∃ m, meshRead demo "broken.ply" = .ok (false, m)) := Or.inl ⟨"bad header", rfl⟩
  have hcloud : (∃ e, cloudRead demo "broken.ply" = .error e) ∨
      (∃ c, cloudRead demo "broken.ply" = .ok (false, c)) := Or.inl ⟨"bad header", rfl⟩
  obtain ⟨b, w1, hload, hrest⟩ :=
    LoadGeometry_survives_reader_failure demo demoWindow "broken.ply"
  have hb : b = false := (hrest hmesh).2 hcloud
  subst hb
  exact ⟨hmesh, hcloud, w1, hload, (hrest hmesh).1⟩

/-- C8: a failed load is atomic. If `LoadGeometry` returns false, the window is
as before except for the record of calls: the handle list, the scene and the
camera are unchanged. No call went to the scene or to the camera, whereas
every `SetGeometry` sets the camera up; so `SetGeometry` was not called. -/
theorem LoadGeometry_failure_is_atomic (X : Externals) (w w1 : Window X) (path : String)
    (hfail : LoadGeometry X w path = .ok (false, w1)) :
    w1.geometryHandles = w.geometryHandles ∧ w1.scene3d = w.scene3d ∧
    w1.camera = w.camera ∧ w1 = { w with calls := w1.calls } ∧
    (∀ c ∈ newCalls w w1, c.isSceneCall = false) ∧
    cameraSetups (newCalls w w1) = [] ∧
    (∀ (w0 : Window X) (gs : List X.Geometry),
      cameraSetups (newCalls w0 (SetGeometry X w0 gs)) ≠ []) := by
  have hset : ∀ (w0 : Window X) (gs : List X.Geometry),
      cameraSetups (newCalls w0 (SetGeometry X w0 gs)) ≠ [] := by
    intro w0 gs
    rw [(cameraSetups_SetGeometry X w0 gs)]
    simp
  obtain ⟨fmt, fargs, hw⟩ := meshWarning_isLog X path
  rcases LoadGeometry_cases X w path with ⟨m, _, h⟩ | ⟨c, _, _, h⟩ | ⟨_, _, h⟩
  · rw [h] at hfail
    simp at hfail
  · rw [h] at hfail
    simp at hfail
  · rw [h] at hfail
    simp only [Except.ok.injEq, Prod.mk.injEq, true_and] at hfail
    subst hfail
    refine ⟨rfl, rfl, rfl, rfl, ?_, ?_, hset⟩
    · rw [newCalls_of_append w _ _ rfl]
      intro c hc
      simp only [List.mem_cons, List.mem_singleton, List.not_mem_nil, or_false] at hc
      rcases hc with rfl | rfl | rfl | rfl
      · rfl
      · rw [hw]
        rfl
      · rfl
      · rfl
    · rw [newCalls_of_append w _ _ rfl]
      simp [cameraSetups, hw]

/-- Evaluation: on the concrete window showing one box, loading a path neither
reader accepts returns false and leaves the handle, the scene and the camera. -/
theorem LoadGeometry_failure_is_atomic_witness :
    LoadGeometry demo demoWindowBox "nothing.xyz" = .ok (false,
      { demoWindowBox with calls := [.ReadTriangleMesh "nothing.xyz",
          .LogWarning "Failed to read %s" ["nothing.xyz"], .ReadPointCloud "nothing.xyz",
          .LogWarning "Failed to read points %s" ["nothing.xyz"]] }) ∧
    ({ demoWindowBox with calls := [.ReadTriangleMesh "nothing.xyz",
          .LogWarning "Failed to read %s" ["nothing.xyz"], .ReadPointCloud "nothing.xyz",
          .LogWarning "Failed to read points %s" ["nothing.xyz"]] } : Window demo).geometryHandles
      = [1] :=
  ⟨rfl, (LoadGeometry_failure_is_atomic demo demoWindowBox _ "nothing.xyz" rfl).1⟩

/-! ## Claims about drag and drop, export and the menu -/

theorem OnDragDropped_of_load (X : Externals) (w : Window X) (path : String) (b : Bool)
    (w1 : Window X)
    (h : LoadGeometry X (SetTitle w ("Open3D - " ++ path)) path = .ok (b, w1)) :
    OnDragDropped X w path = .ok (if b then w1 else
      ShowMessageBox w1 "Error loading geometry"
        ("Error reading geometry file '" ++ path ++ "'")) := by
  unfold OnDragDropped
  cases b <;> simp [h, bind, Except.bind, pure, Except.pure]

/-- C6: `OnDragDropped(path)` first sets the title of this window to "Open3D - "
followed by the path, then loads the path into this window. It shows the
message box titled "Error loading geometry" whose text is "Error reading
geometry file", the path between single quotes, exactly when `LoadGeometry`
returned false; when the load succeeds it shows no message box. -/
theorem OnDragDropped_sets_title_and_reports (X : Externals) (w : Window X)
    (path : String) :
    ∃ b w1 w2, LoadGeometry X (SetTitle w ("Open3D - " ++ path)) path = .ok (b, w1) ∧
      OnDragDropped X w path = .ok w2 ∧
      w2.title = "Open3D - " ++ path ∧
      (newCalls w w2).head? = some (Call.SetTitle ("Open3D - " ++ path)) ∧
      (b = true → w2 = w1 ∧ messageBoxes (newCalls w w2) = [] ∧
        w2.messageBox = w.messageBox) ∧
      (b = false →
        w2 = ShowMessageBox w1 "Error loading geometry"
          ("Error reading geometry file '" ++ path ++ "'") ∧
        messageBoxes (newCalls w w2) =
          [("Error loading geometry", "Error reading geometry file '" ++ path ++ "'")] ∧
        w2.messageBox =
          some ("Error loading geometry", "Error reading geometry file '" ++ path ++ "'")) ∧
      (messageBoxes (newCalls w w2) ≠ [] ↔ b = false) := by
  obtain ⟨b, w1, cs, hload, hcalls, hboxes, htitle, _, hbox, _, _⟩ :=
    LoadGeometry_frame X (SetTitle w ("Open3D - " ++ path)) path
  have hdrop := OnDragDropped_of_load X w path b w1 hload
  have hcalls1 : w1.calls = w.calls ++ (Call.SetTitle ("Open3D - " ++ path) :: cs) := by
    rw [hcalls]
    simp [SetTitle, Window.record]
  cases b
  · refine ⟨false, w1, _, hload, hdrop, ?_, ?_, ?_, ?_, ?_⟩
    · simp [ShowMessageBox, Window.record, htitle, SetTitle]
    · rw [newCalls_of_append w _ (Call.SetTitle ("Open3D - " ++ path) ::
        (cs ++ [Call.ShowMessageBox "Error loading geometry"
          ("Error reading geometry file '" ++ path ++ "'")]))
        (by simp [ShowMessageBox, Window.record, hcalls1])]
      rfl
    · intro hb
      cases hb
    · intro _
      refine ⟨rfl, ?_, ?_⟩
      · rw [newCalls_of_append w _ (Call.SetTitle ("Open3D - " ++ path) ::
          (cs ++ [Call.ShowMessageBox "Error loading geometry"
            ("Error reading geometry file '" ++ path ++ "'")]))
          (by simp [ShowMessageBox, Window.record, hcalls1])]
        rw [show (Call.SetTitle ("Open3D - " ++ path) :: (cs ++
            [Call.ShowMessageBox "Error loading geometry"
              ("Error reading geometry file '" ++ path ++ "'")]) : List (Call X)) =
          [Call.SetTitle ("Open3D - " ++ path)] ++ (cs ++
            [Call.ShowMessageBox "Error loading geometry"
              ("Error reading geometry file '" ++ path ++ "'")]) from rfl,
          messageBoxes_append, messageBoxes_append, hboxes]
        simp [messageBoxes]
      · simp [ShowMessageBox, Window.record]
    · rw [newCalls_of_append w _ (Call.SetTitle ("Open3D - " ++ path) ::
        (cs ++ [Call.ShowMessageBox "Error loading geometry"
          ("Error reading geometry file '" ++ path ++ "'")]))
        (by simp [ShowMessageBox, Window.record, hcalls1])]
      rw [show (Call.SetTitle ("Open3D - " ++ path) :: (cs ++
          [Call.ShowMessageBox "Error loading geometry"
            ("Error reading geometry file '" ++ path ++ "'")]) : List (Call X)) =
        [Call.SetTitle ("Open3D - " ++ path)] ++ (cs ++
          [Call.ShowMessageBox "Error loading geometry"
            ("Error reading geometry file '" ++ path ++ "'")]) from rfl,
        messageBoxes_append, messageBoxes_append, hboxes]
      simp [messageBoxes]
  · have hnone : messageBoxes (newCalls w w1) = [] := by
      rw [newCalls_of_append w w1 _ hcalls1]
      rw [show (Call.SetTitle ("Open3D - " ++ path) :: cs : List (Call X)) =
        [Call.SetTitle ("Open3D - " ++ path)] ++ cs from rfl, messageBoxes_append, hboxes]
      simp [messageBoxes]
    refine ⟨true, w1, w1, hload, hdrop, ?_, ?_, ?_, ?_, ?_⟩
    · simp [htitle, SetTitle]
    · rw [newCalls_of_append w w1 _ hcalls1]
      rfl
    · intro _
      exact ⟨rfl, hnone, by simp [hbox, SetTitle, Window.record]⟩
    · intro hb
      cases hb
    · simp [hnone]

/-- Evaluation: dropping a path neither reader accepts on the concrete window
shows the error box; the flag of the load is false there. -/
theorem OnDragDropped_sets_title_and_reports_witness :
    ∃ w2, OnDragDropped demo demoWindow "nothing.xyz" = .ok w2 ∧
      w2.title = "Open3D - nothing.xyz" ∧
      w2.messageBox =
        some ("Error loading geometry", "Error reading geometry file 'nothing.xyz'") := by
  obtain ⟨b, w1, w2, hload, hdrop, htitle, _, _, hfalse, _⟩ :=
    OnDragDropped_sets_title_and_reports demo demoWindow "nothing.xyz"
  have hb : b = false := by
    have h0 : (LoadGeometry demo (SetTitle demoWindow ("Open3D - " ++ "nothing.xyz"))
        "nothing.xyz").map Prod.fst = .ok false := rfl
    rw [hload] at h0
    simpa [Except.map] using h0
  exact ⟨w2, hdrop, htitle, (hfalse hb).2.2⟩

/-- C7: export is not implemented yet. Selecting `FILE_EXPORT_RGB` or
`FILE_EXPORT_DEPTH` shows a dialog of type SAVE titled "Save File" with the
filters ".png" and all files. When that dialog completes with a path, the
dialog is closed and then `ExportRGB(path)` runs if the item was
`FILE_EXPORT_RGB`, `ExportDepth(path)` if it was `FILE_EXPORT_DEPTH`. Each of
the two, for every path, shows a "Not implemented" message box naming itself
and changes nothing else: not the handles, not the scene, not a light setting. -/
theorem export_is_not_implemented (X : Externals) (w : Window X) (path : String) :
    (OnMenuItemSelected w MenuId.FILE_EXPORT_RGB.toItemId).dialog =
      some (.FileDialog .SAVE "Save File"
        [(".png", "PNG images (.png)"), ("", "All files")] .closeDialog
        (.exportImage .FILE_EXPORT_RGB)) ∧
    (OnMenuItemSelected w MenuId.FILE_EXPORT_DEPTH.toItemId).dialog =
      some (.FileDialog .SAVE "Save File"
        [(".png", "PNG images (.png)"), ("", "All files")] .closeDialog
        (.exportImage .FILE_EXPORT_DEPTH)) ∧
    dialogDone X (OnMenuItemSelected w MenuId.FILE_EXPORT_RGB.toItemId) path =
      .ok (ExportRGB (CloseDialog (OnMenuItemSelected w MenuId.FILE_EXPORT_RGB.toItemId))
        path) ∧
    dialogDone X (OnMenuItemSelected w MenuId.FILE_EXPORT_DEPTH.toItemId) path =
      .ok (ExportDepth (CloseDialog (OnMenuItemSelected w MenuId.FILE_EXPORT_DEPTH.toItemId))
        path) ∧
    (∀ menuId, runOnDone X w path (.exportImage menuId) =
      .ok (if menuId = .FILE_EXPORT_RGB then ExportRGB (CloseDialog w) path
        else ExportDepth (CloseDialog w) path)) ∧
    (CloseDialog w).dialog = none ∧
    ExportRGB w path =
      { w with messageBox := some ("Not implemented", "ExportRGB() is not implemented yet"),
               calls := w.calls ++
                 [.ShowMessageBox "Not implemented" "ExportRGB() is not implemented yet"] } ∧
    ExportDepth w path =
      { w with messageBox := some ("Not implemented", "ExportDepth() is not implemented yet"),
               calls := w.calls ++
                 [.ShowMessageBox "Not implemented" "ExportDepth() is not implemented yet"] } ∧
    (ExportRGB w path).geometryHandles = w.geometryHandles ∧
    (ExportRGB w path).lightSettings = w.lightSettings ∧
    (ExportDepth w path).geometryHandles = w.geometryHandles ∧
    (ExportDepth w path).lightSettings = w.lightSettings := by
  refine ⟨rfl, rfl, rfl, rfl, ?_, rfl, rfl, rfl, rfl, rfl, rfl, rfl⟩
  intro menuId
  by_cases h : menuId = .FILE_EXPORT_RGB <;> simp [runOnDone, h, pure, Except.pure]

/-- C10: opening a file from the menu is handled like a dropped file. Selecting
`FILE_OPEN` shows the dialog titled "Open Geometry"; when it completes with a
path, the result, as a whole window state and so in its title, handles, scene
and message box, is that of closing the dialog and then `OnDragDropped(path)`.
Cancelling the dialog closes it and changes nothing else but the record. -/
theorem open_from_menu_is_drag_and_drop (X : Externals) (w : Window X) (path : String) :
    (OnMenuItemSelected w MenuId.FILE_OPEN.toItemId).dialog =
      some (.FileDialog .OPEN "Open Geometry" openGeometryFilters .closeDialog
        .openGeometry) ∧
    dialogDone X (OnMenuItemSelected w MenuId.FILE_OPEN.toItemId) path =
      OnDragDropped X (CloseDialog (OnMenuItemSelected w MenuId.FILE_OPEN.toItemId)) path ∧
    dialogCancel (OnMenuItemSelected w MenuId.FILE_OPEN.toItemId) =
      CloseDialog (OnMenuItemSelected w MenuId.FILE_OPEN.toItemId) ∧
    dialogCancel (OnMenuItemSelected w MenuId.FILE_OPEN.toItemId) =
      { w with dialog := none,
               calls := w.calls ++ [.ShowDialog (.FileDialog .OPEN "Open Geometry"
                 openGeometryFilters .closeDialog .openGeometry), .CloseDialog] } := by
  refine ⟨rfl, rfl, rfl, ?_⟩
  simp [dialogCancel, OnMenuItemSelected, MenuId.ofItemId, MenuId.toItemId, ShowDialog,
    runOnCancel, CloseDialog, Window.record]

/-! ## Claims about the menubar -/

/-- With a menubar installed, the block does nothing. -/
theorem createMenu_of_some (app : Application) (m : Menu) (h : app.menubar = some m) :
    createMenu app = app := by
  simp [createMenu, h]

/-- After the block there is a menubar. -/
theorem createMenu_menubar_isSome (app : Application) :
    (createMenu app).menubar.isSome = true := by
  cases hm : app.menubar with
  | none => simp [createMenu, hm]
  | some m => simp [createMenu, hm]

theorem createMenu_idem (app : Application) : createMenu (createMenu app) = createMenu app := by
  have h := createMenu_menubar_isSome app
  obtain ⟨m, hm⟩ := Option.isSome_iff_exists.mp h
  exact createMenu_of_some _ m hm

theorem createMenu_iterate (app : Application) (n : Nat) :
    Nat.iterate createMenu n (createMenu app) = createMenu app := by
  induction n with
  | zero => rfl
  | succ n ih => rw [Function.iterate_succ_apply, createMenu_idem, ih]

/-- C11: the menubar is created once and its unimplemented items start disabled.
The constructor builds and installs a menubar only when the application has
none: with a menubar installed the application is left as it is, so any number
of further constructions leave the menubar of the first. The menubar it builds
has the top-level menus File, View, Settings, Help in that order; its items are
Open, Export RGB, Export depth image, Close, Points, Wireframe, Mesh, Light,
About and Contact; and `SetEnabled` is called five times, with false, on Export
RGB, Export depth image, Points, Wireframe and Mesh, and on no other item. -/
theorem menubar_created_once (app : Application) :
    (app.menubar = none → ∃ menu, (createMenu app).menubar = some menu ∧
      topLevelMenus menu = ["File", "View", "Settings", "Help"] ∧
      itemsOf menu =
        [(.FILE_OPEN, "Open..."), (.FILE_EXPORT_RGB, "Export RGB..."),
         (.FILE_EXPORT_DEPTH, "Export depth image..."), (.FILE_CLOSE, "Close"),
         (.VIEW_POINTS, "Points"), (.VIEW_WIREFRAME, "Wireframe"), (.VIEW_MESH, "Mesh"),
         (.SETTINGS_LIGHT, "Light"), (.HELP_ABOUT, "About"), (.HELP_CONTACT, "Contact")] ∧
      enabledCallsOf menu =
        [(.FILE_EXPORT_RGB, false), (.FILE_EXPORT_DEPTH, false), (.VIEW_POINTS, false),
         (.VIEW_WIREFRAME, false), (.VIEW_MESH, false)] ∧
      (∀ itemId enabled, (itemId, enabled) ∈ enabledCallsOf menu →
        enabled = false ∧
        itemId ≠ .FILE_OPEN ∧ itemId ≠ .FILE_CLOSE ∧ itemId ≠ .SETTINGS_LIGHT ∧
        itemId ≠ .HELP_ABOUT ∧ itemId ≠ .HELP_CONTACT)) ∧
    (∀ m, app.menubar = some m → createMenu app = app) ∧
    (createMenu (createMenu app)).menubar = (createMenu app).menubar ∧
    (∀ n, (Nat.iterate createMenu n (createMenu app)).menubar = (createMenu app).menubar) := by
  refine ⟨?_, fun m hm => createMenu_of_some app m hm, ?_, ?_⟩
  · intro hnone
    cases app with
    | mk menubar =>
      simp only at hnone
      subst hnone
      refine ⟨_, rfl, rfl, rfl, rfl, ?_⟩
      intro itemId enabled hmem
      change (itemId, enabled) ∈
        [(MenuId.FILE_EXPORT_RGB, false), (MenuId.FILE_EXPORT_DEPTH, false),
         (MenuId.VIEW_POINTS, false), (MenuId.VIEW_WIREFRAME, false),
         (MenuId.VIEW_MESH, false)] at hmem
      simp only [List.mem_cons, Prod.mk.injEq, List.not_mem_nil, or_false] at hmem
      rcases hmem with ⟨rfl, rfl⟩ | ⟨rfl, rfl⟩ | ⟨rfl, rfl⟩ | ⟨rfl, rfl⟩ | ⟨rfl, rfl⟩ <;>
        simp
  · rw [createMenu_idem]
  · intro n
    rw [createMenu_iterate]

/-- Evaluation: the first construction installs a menubar with the four menus,
and a menubar installed by someone else is left as it is. -/
theorem menubar_created_once_witness :
    demoApplication.menubar = none ∧
    (∃ menu, (createMenu demoApplication).menubar = some menu ∧
      topLevelMenus menu = ["File", "View", "Settings", "Help"]) ∧
    demoApplicationOther.menubar =
      some [MenuOp.AddMenu "Tools" [MenuOp.AddItem "Close" none .FILE_CLOSE]] ∧
    createMenu demoApplicationOther = demoApplicationOther := by
  obtain ⟨menu, hmenu, htop, _⟩ := (menubar_created_once demoApplication).1 rfl
  exact ⟨rfl, ⟨menu, hmenu, htop⟩, rfl,
    (menubar_created_once demoApplicationOther).2.1 _ rfl⟩

end GuiVisualizer
